import Mathlib

/-!
# Verification of the XBee frame codec and schema packer

Shallow embedding of `src/xbee/xbee.py` (frame codec, link session) and
`src/xbee/xbee_templates.py` (schema registry, field packer/unpacker).

Conventions:
* Python `bytes` values are modelled as `List Nat` (each element a byte
  value, `< 256` for real byte strings).
* Python exceptions are modelled with explicit error inductives and
  `Except`; the serial stream is modelled as the finite list of raw bytes
  that arrive before the per-byte timeout, so exhausting the stream where
  another raw byte is expected corresponds to the timeout of the underlying
  blocking read.
* Python `int` values are modelled as `Int`, Python `str` values as lists
  of Unicode code points.
-/

namespace XBeeModel

set_option maxRecDepth 8000

/-! ## Frame codec (`xbee.py`) -/

/-- `XBee._generate_checksum`: the single checksum byte
`0xFF - (sum(message) & 0xFF)` (numpy's uint8-buffer sum masked with `0xFF`
is the byte sum modulo 256). -/
def generate_checksum (message : List Nat) : Nat :=
  0xFF - message.sum % 256

/-- `XBee._validate_checksum`: recompute the checksum over `message[:-1]`
and compare it with the trailing byte `message[-1]`.  (Only called on
non-empty messages; the default of `getLastD` is never reached there.) -/
def validate_checksum (message : List Nat) : Bool :=
  generate_checksum message.dropLast == message.getLastD 0

/-- The four reserved byte values tested by `XBee._escape`. -/
def reservedByte (b : Nat) : Bool :=
  b == 0x7E || b == 0x7D || b == 0x11 || b == 0x13

/-- Body of the `XBee._escape` loop: a reserved byte becomes
`0x7D` followed by the byte XOR `0x20`; any other byte is kept. -/
def esc1 (b : Nat) : List Nat :=
  if reservedByte b then [0x7D, b ^^^ 0x20] else [b]

/-- `XBee._escape`: the accumulator loop over the message. -/
def xescape (message : List Nat) : List Nat :=
  message.foldl (fun escaped b => escaped ++ esc1 b) []

/-- `XBee._prepare_write`: delimiter, two length bytes
(`length >> 8 & 0xFF` and `length & 0xFF`), then the escaped message plus
checksum. -/
def prepare_write (message : List Nat) : List Nat :=
  0x7E :: ((message.length >>> 8) &&& 0xFF) :: (message.length &&& 0xFF) ::
    xescape (message ++ [generate_checksum message])

/-- Errors raised by the inbound framing layer (`XBee._read_if_available`
and `XBee.read`): `Exception("Bytes lost")`, the per-byte serial timeout
(`Exception("Serial Timeout")`, or the `IndexError` from an empty timed-out
`read()`), and `Exception("Checksum incorrect")`. -/
inductive ReadErr
  | syncLost
  | readTimeout
  | checksumMismatch
deriving DecidableEq, Repr

/-- The logical-byte loop of `XBee._read_if_available`: read `n` logical
bytes from the raw stream; a raw `0x7D` consumes the following raw byte and
yields it XOR `0x20`.  Stream exhaustion is the per-byte timeout. -/
def read_logical : Nat → List Nat → Except ReadErr (List Nat × List Nat)
  | 0, s => .ok ([], s)
  | _ + 1, [] => .error .readTimeout
  | n + 1, b :: s =>
    if b = 0x7D then
      match s with
      | [] => .error .readTimeout
      | b2 :: s2 => (read_logical n s2).map (fun r => ((b2 ^^^ 0x20) :: r.1, r.2))
    else
      (read_logical n s).map (fun r => (b :: r.1, r.2))

/-- `XBee._read_if_available` followed by the checksum validation of
`XBee.read`: returns `none` when no byte is buffered, otherwise requires the
delimiter, reads the two big-endian length bytes, reads `L + 1` logical
bytes, validates the checksum, and returns the `L` payload bytes. -/
def xbee_read (stream : List Nat) : Except ReadErr (Option (List Nat)) :=
  match stream with
  | [] => .ok none
  | d :: rest =>
    if d = 0x7E then
      match rest with
      | hi :: lo :: body =>
        match read_logical ((hi <<< 8) + lo + 1) body with
        | .error e => .error e
        | .ok (msg, _) =>
          if validate_checksum msg then .ok (some msg.dropLast)
          else .error .checksumMismatch
      | _ => .error .readTimeout
    else .error .syncLost

/-! ## Schema registry (`xbee_templates.py`) -/

/-- One field row of a template: name, documented byte offset, byte length
(`-1` = variable), data-type string, and the optional fifth marker. -/
structure Field where
  fname : String
  start : Int
  flen : Int
  ftype : String
  opt : Option String
deriving DecidableEq, Repr

/-- A template: its display name and the ordered field rows.  The Python
template list `[name, field1, ..., fieldn]` is split into `tname` and
`fields`; index `i` of the Python list is field `i - 1` here. -/
structure Template where
  tname : String
  fields : List Field
deriving DecidableEq, Repr

/-- Row without the optional marker. -/
def F (n : String) (s l : Int) (t : String) : Field := ⟨n, s, l, t, none⟩

/-- Row with a fifth marker (as written, `"optional"`). -/
def FO (n : String) (s l : Int) (t : String) (o : String) : Field := ⟨n, s, l, t, some o⟩

/-- `Templates.templates`, keyed by the one-byte API ID.  The `0x09`
template's last row is transcribed as in the source: it has only four
entries, so its *type* string is `"optional"` and it carries no fifth
marker. -/
def templates (t : Nat) : Option Template :=
  if t = 0x08 then some ⟨"AT Command Frame",
    [F "Frame ID" 4 1 "uint8_t", F "AT Command" 5 2 "str",
     FO "Parameter Value" 7 (-1) "bytes" "optional"]⟩
  else if t = 0x09 then some ⟨"AT Command Queue Parameter Value Frame",
    [F "Frame ID" 4 1 "uint8_t", F "AT Command" 5 2 "str",
     F "Parameter Value" 7 (-1) "optional"]⟩
  else if t = 0x10 then some ⟨"Transmit Request Frame",
    [F "Frame ID" 4 1 "uint8_t", F "Destination Address" 5 8 "uint64_t",
     F "Reserved" 13 2 "uint16_t", F "Broadcast Radius" 15 1 "uint8_t",
     F "Transmit Options" 16 1 "uint8_t", F "RF data" 17 (-1) "bytes"]⟩
  else if t = 0x11 then some ⟨"Explicit Addressing Command Frame",
    [F "Frame ID" 4 1 "uint8_t", F "Destination Address" 5 8 "uint64_t",
     F "Reserved" 13 2 "uint16_t", F "Source endpoint" 15 1 "uint8_t",
     F "Destination endpoint" 16 1 "uint8_t", F "Cluster ID" 17 2 "uint16_t",
     F "Profile ID" 19 2 "uint16_t", F "Broadcast Radius" 21 1 "uint8_t",
     F "Transmit Options" 22 1 "uint8_t", F "RF data" 23 (-1) "bytes"]⟩
  else if t = 0x17 then some ⟨"Remote AT Command Request Frame",
    [F "Frame ID" 4 1 "uint8_t", F "Destination Address" 5 8 "uint64_t",
     F "Reserved" 13 2 "uint16_t", F "Remote Command Options" 15 1 "uint8_t",
     F "AT command" 16 2 "str", FO "Command Parameter" 18 (-1) "bytes" "optional"]⟩
  else if t = 0x88 then some ⟨"AT Command Response Frame",
    [F "Frame ID" 4 1 "uint8_t", F "AT Command" 5 2 "str",
     F "Command Status" 7 1 "uint8_t", FO "Command Data" 8 (-1) "bytes" "optional"]⟩
  else if t = 0x89 then some ⟨"TX Status Frame",
    [F "Frame ID" 4 1 "uint8_t", F "Status" 5 1 "uint8_t"]⟩
  else if t = 0x8A then some ⟨"Modem Status Frame",
    [F "Status" 4 1 "uint8_t"]⟩
  else if t = 0x8B then some ⟨"Transmit Status Frame",
    [F "Frame ID" 4 1 "uint8_t", F "Reserved" 5 2 "uint16_t",
     F "Transmit Retry Count" 7 1 "uint8_t", F "Delivery Status" 8 1 "uint8_t",
     F "Discovery Status" 9 1 "uint8_t"]⟩
  else if t = 0x90 then some ⟨"Receive Packet Frame",
    [F "Source Address" 4 8 "uint64_t", F "Reserved" 12 2 "uint16_t",
     F "Receive options" 14 1 "uint8_t", F "Received data" 15 (-1) "bytes"]⟩
  else if t = 0x91 then some ⟨"Explicit Rx Indicator Frame",
    [F "Source Address" 4 8 "uint64_t", F "Reserved" 12 2 "uint16_t",
     F "Source endpoint" 14 1 "uint8_t", F "Destination endpoint" 15 1 "uint8_t",
     F "Cluster ID" 16 2 "uint16_t", F "Profile ID" 18 2 "uint16_t",
     F "Receive options" 20 1 "uint8_t", F "Received data" 21 (-1) "bytes"]⟩
  else if t = 0x97 then some ⟨"Remote Command Response Frame",
    [F "Frame ID" 4 1 "uint8_t", F "Destination Address" 5 8 "uint64_t",
     F "Reserved" 13 2 "uint16_t", F "AT command" 15 2 "str",
     F "Command Status" 17 1 "uint8_t", F "Command Parameter" 18 (-1) "bytes"]⟩
  else none

/-- A Python value appearing as a frame-field argument or result. -/
inductive PyVal
  | pyInt (n : Int)
  | pyBytes (bs : List Nat)
  | pyStr (cs : List Nat)
deriving DecidableEq, Repr

/-- Python exceptions reached by the packer/unpacker and the session code. -/
inductive PyErr
  | assertError
  | indexError
  | valueError
  | typeError
  | structError
  | unicodeError
  | unexpectedFrame
deriving DecidableEq, Repr

/-- One item of a Python struct format string: `B`, `H`, `Q`, or a repeat
count followed by `c` (the count may be negative, mirroring
`str(byte_length) + "c"` with a negative computed length, which `struct`
rejects). -/
inductive STok
  | tB
  | tH
  | tQ
  | tC (n : Int)
deriving DecidableEq, Repr

/-- A value in a struct argument/result tuple: a Python int or a one-byte
bytes object. -/
inductive SVal
  | i (n : Int)
  | c (b : Nat)
deriving DecidableEq, Repr

/-- `bytes([v])` for a Python value: only ints in `[0, 256)` succeed. -/
def asByte (v : PyVal) : Except PyErr Nat :=
  match v with
  | .pyInt n => if 0 ≤ n ∧ n < 256 then .ok n.toNat else .error .valueError
  | _ => .error .typeError

/-- `template[i][3]`: for `i = 0` this indexes the template *name* string at
position 3 (a one-character string); for `i ≥ 1` it is field `i`'s type. -/
def template_item_type (t : Template) (i : Nat) : Option String :=
  if i = 0 then (t.tname.toList.get? 3).map (fun c => String.mk [c])
  else (t.fields.get? (i - 1)).map Field.ftype

/-- The struct-format contribution of one component in
`Templates.generate_struct_encode`: a `bytes`/`str` field contributes a
`c`-run sized by the *argument* (its byte length if it is `bytes`, else 1);
integer fields contribute their fixed code; any other type string
contributes nothing. -/
def encode_tok (ty : String) (arg : PyVal) : List STok :=
  if ty = "bytes" ∨ ty = "str" then
    [.tC (match arg with | .pyBytes bs => (bs.length : Int) | _ => 1)]
  else if ty = "uint64_t" then [.tQ]
  else if ty = "uint16_t" then [.tH]
  else if ty = "uint8_t" then [.tB]
  else []

/-- The loop of `Templates.generate_struct_encode` over components
`i, i + 1, ...` for the remaining arguments; a component index beyond the
template list raises `IndexError`. -/
def encode_toks_go (tmpl : Template) : Nat → List PyVal → Except PyErr (List STok)
  | _, [] => .ok []
  | i, arg :: rest =>
    match template_item_type tmpl i with
    | none => .error .indexError
    | some ty =>
      match encode_toks_go tmpl (i + 1) rest with
      | .error e => .error e
      | .ok ts => .ok (encode_tok ty arg ++ ts)

/-- `Templates.generate_struct_encode`. -/
def generate_struct_encode (args : List PyVal) : Except PyErr (List STok) :=
  match args with
  | [] => .error .indexError
  | a0 :: rest =>
    match asByte a0 with
    | .error e => .error e
    | .ok tag =>
      match templates tag with
      | none => .error .assertError
      | some tmpl =>
        match encode_toks_go tmpl 1 rest with
        | .error e => .error e
        | .ok ts => .ok (.tB :: ts)

/-- One iteration of the `out_args` loop in `Templates.pack_message`:
strings are split into ASCII-encoded one-byte chunks, bytes into one-byte
chunks, an int is converted to a one-byte bytes object when the field type
is `"bytes"`, and any other argument passes through. -/
def encode_sub_args (ty : String) (arg : PyVal) : Except PyErr (List SVal) :=
  match arg with
  | .pyStr cs =>
    cs.mapM (fun ch => if ch < 128 then Except.ok (SVal.c ch) else .error .unicodeError)
  | .pyBytes bs => .ok (bs.map SVal.c)
  | .pyInt n =>
    if ty = "bytes" then
      if 0 ≤ n ∧ n < 256 then .ok [SVal.c n.toNat] else .error .valueError
    else .ok [SVal.i n]

/-- The `out_args` loop of `Templates.pack_message` over argument indices
`i, i + 1, ...`. -/
def pack_out_args (tmpl : Template) : Nat → List PyVal → Except PyErr (List SVal)
  | _, [] => .ok []
  | i, arg :: rest =>
    match template_item_type tmpl i with
    | none => .error .indexError
    | some ty =>
      match encode_sub_args ty arg with
      | .error e => .error e
      | .ok vs =>
        match pack_out_args tmpl (i + 1) rest with
        | .error e => .error e
        | .ok rest' => .ok (vs ++ rest')

/-- The `c`-run of `struct.pack`: consume `k` one-byte bytes objects,
yielding their byte values and the remaining arguments; any other
argument kind is a `struct.error` (signalled by `none`). -/
def pack_c : Nat → List SVal → Option (List Nat × List SVal)
  | 0, vs => some ([], vs)
  | k + 1, .c b :: vs => (pack_c k vs).map (fun p => (b :: p.1, p.2))
  | _ + 1, _ => none

/-- `struct.pack` for the formats generated here: `B`/`H`/`Q` take an
in-range int and emit big-endian bytes, an `n`-fold `c` takes `n` one-byte
bytes objects; argument-count or kind mismatches, out-of-range values and
negative repeat counts raise `struct.error`. -/
def struct_pack : List STok → List SVal → Except PyErr (List Nat)
  | [], [] => .ok []
  | [], _ :: _ => .error .structError
  | .tB :: ts, .i n :: vs =>
    if 0 ≤ n ∧ n < 256 then (struct_pack ts vs).map (n.toNat :: ·)
    else .error .structError
  | .tH :: ts, .i n :: vs =>
    if 0 ≤ n ∧ n < 65536 then
      (struct_pack ts vs).map (fun l => n.toNat / 256 :: n.toNat % 256 :: l)
    else .error .structError
  | .tQ :: ts, .i n :: vs =>
    if 0 ≤ n ∧ n < 2 ^ 64 then
      (struct_pack ts vs).map (fun l =>
        n.toNat / 256 ^ 7 :: n.toNat / 256 ^ 6 % 256 :: n.toNat / 256 ^ 5 % 256 ::
        n.toNat / 256 ^ 4 % 256 :: n.toNat / 256 ^ 3 % 256 :: n.toNat / 256 ^ 2 % 256 ::
        n.toNat / 256 % 256 :: n.toNat % 256 :: l)
    else .error .structError
  | .tC k :: ts, vs =>
    if k < 0 then .error .structError
    else
      match pack_c k.toNat vs with
      | none => .error .structError
      | some (bs, vs') => (struct_pack ts vs').map (bs ++ ·)
  | _, _ => .error .structError

/-- `Templates.pack_message`. -/
def pack_message (args : List PyVal) : Except PyErr (List Nat) :=
  match args with
  | [] => .error .indexError
  | a0 :: _ =>
    match asByte a0 with
    | .error e => .error e
    | .ok tag =>
      match templates tag with
      | none => .error .assertError
      | some tmpl =>
        match generate_struct_encode args with
        | .error e => .error e
        | .ok toks =>
          match pack_out_args tmpl 0 args with
          | .error e => .error e
          | .ok out => struct_pack toks out

/-- The per-field body of `Templates.generate_struct_decode`: produces the
struct tokens and the mask bytes contributed by field `i` (Python list
index `i`) for a message of length `msgLen`.  For `bytes`/`str` fields the
span is the declared length, or `len(message) + 3 - start` when the field
is variable (`-1`) or optional; an optional field whose computed span is 0
contributes nothing.  Python's `byte_length * bytes([i])` yields an empty
mask for a non-positive count, hence `Int.toNat`. -/
def decode_field_toks (msgLen : Nat) (f : Field) (i : Nat) : List STok × List Nat :=
  if f.ftype = "bytes" ∨ f.ftype = "str" then
    let is_optional := f.opt = some "optional"
    let byte_length : Int :=
      if is_optional ∨ f.flen = -1 then (msgLen : Int) + 3 - f.start else f.flen
    if is_optional ∧ byte_length = 0 then ([], [])
    else ([.tC byte_length], List.replicate byte_length.toNat i)
  else if f.ftype = "uint64_t" then ([.tQ], [i])
  else if f.ftype = "uint16_t" then ([.tH], [i])
  else if f.ftype = "uint8_t" then ([.tB], [i])
  else ([], [])

/-- The field loop of `Templates.generate_struct_decode`. -/
def decode_toks_go (msgLen : Nat) : List Field → Nat → List STok × List Nat
  | [], _ => ([], [])
  | f :: fs, i =>
    let p := decode_field_toks msgLen f i
    let q := decode_toks_go msgLen fs (i + 1)
    (p.1 ++ q.1, p.2 ++ q.2)

/-- `Templates.generate_struct_decode`: the leading `>B` consumes the API ID
with mask byte 0, then each field contributes per `decode_field_toks`. -/
def generate_struct_decode (message : List Nat) :
    Except PyErr (List STok × List Nat) :=
  match message with
  | [] => .error .indexError
  | m0 :: _ =>
    match templates m0 with
    | none => .error .assertError
    | some tmpl =>
      let p := decode_toks_go message.length tmpl.fields 1
      .ok (.tB :: p.1, 0 :: p.2)

/-- The byte size consumed by one struct token. -/
def tok_size (t : STok) : Int :=
  match t with
  | .tB => 1
  | .tH => 2
  | .tQ => 8
  | .tC n => n

/-- Total size of a struct format. -/
def struct_size (ts : List STok) : Int := (ts.map tok_size).sum

/-- A format containing a negative `c`-repeat is rejected by `struct`. -/
def bad_format (ts : List STok) : Bool :=
  ts.any (fun t => match t with | .tC n => decide (n < 0) | _ => false)

/-- The `c`-run of `struct.unpack`: take `k` bytes from the message as `k`
one-byte values. -/
def unpack_c : Nat → List Nat → Option (List SVal × List Nat)
  | 0, rest => some ([], rest)
  | k + 1, b :: rest => (unpack_c k rest).map (fun p => (.c b :: p.1, p.2))
  | _ + 1, [] => none

/-- The parsing loop of `struct.unpack`. -/
def struct_unpack_go : List STok → List Nat → Except PyErr (List SVal)
  | [], [] => .ok []
  | [], _ :: _ => .error .structError
  | .tB :: ts, b :: rest => (struct_unpack_go ts rest).map (.i (b : Int) :: ·)
  | .tB :: _, [] => .error .structError
  | .tH :: ts, b0 :: b1 :: rest =>
    (struct_unpack_go ts rest).map (.i ((b0 : Int) * 256 + b1) :: ·)
  | .tH :: _, _ => .error .structError
  | .tQ :: ts, b0 :: b1 :: b2 :: b3 :: b4 :: b5 :: b6 :: b7 :: rest =>
    (struct_unpack_go ts rest).map
      (.i ((((((((b0 : Int) * 256 + b1) * 256 + b2) * 256 + b3) * 256 + b4) * 256 + b5)
        * 256 + b6) * 256 + b7) :: ·)
  | .tQ :: _, _ => .error .structError
  | .tC k :: ts, rest =>
    if k < 0 then .error .structError
    else
      match unpack_c k.toNat rest with
      | none => .error .structError
      | some (vs, rest') => (struct_unpack_go ts rest').map (vs ++ ·)

/-- `struct.unpack`: rejects bad formats and size mismatches, then parses. -/
def struct_unpack (ts : List STok) (msg : List Nat) : Except PyErr (List SVal) :=
  if bad_format ts then .error .structError
  else if struct_size ts ≠ (msg.length : Int) then .error .structError
  else struct_unpack_go ts msg

/-- `np_mask.max()`: the largest mask byte (the mask always starts with 0). -/
def mask_max (ms : List Nat) : Nat := ms.foldl max 0

/-- `np.where(np_mask == idx)` followed by the data lookup: the struct
values whose mask byte equals `idx`, in order. -/
def values_at (mask : List Nat) (data : List SVal) (idx : Nat) : List SVal :=
  ((mask.zip data).filter (fun p => p.1 = idx)).map Prod.snd

/-- `b''.join(values)`: every joined value must be a bytes object. -/
def join_c (vs : List SVal) : Except PyErr (List Nat) :=
  vs.mapM (fun v => match v with | .c b => Except.ok b | .i _ => .error .typeError)

/-- Python `bytes.decode('utf8')`, returning the decoded code points:
RFC 3629 UTF-8, rejecting overlong forms, surrogates and values beyond
U+10FFFF as CPython does. -/
def utf8_decode : List Nat → Option (List Nat)
  | [] => some []
  | b :: rest =>
    if b < 0x80 then (utf8_decode rest).map (b :: ·)
    else if b < 0xC2 then none
    else if b < 0xE0 then
      match rest with
      | b1 :: r =>
        if 0x80 ≤ b1 ∧ b1 ≤ 0xBF then
          (utf8_decode r).map (((b - 0xC0) * 64 + (b1 - 0x80)) :: ·)
        else none
      | [] => none
    else if b < 0xF0 then
      match rest with
      | b1 :: b2 :: r =>
        if ((b = 0xE0 ∧ 0xA0 ≤ b1 ∧ b1 ≤ 0xBF) ∨
            (b = 0xED ∧ 0x80 ≤ b1 ∧ b1 ≤ 0x9F) ∨
            (b ≠ 0xE0 ∧ b ≠ 0xED ∧ 0x80 ≤ b1 ∧ b1 ≤ 0xBF)) ∧
           0x80 ≤ b2 ∧ b2 ≤ 0xBF then
          (utf8_decode r).map
            (((b - 0xE0) * 4096 + (b1 - 0x80) * 64 + (b2 - 0x80)) :: ·)
        else none
      | _ => none
    else if b < 0xF5 then
      match rest with
      | b1 :: b2 :: b3 :: r =>
        if ((b = 0xF0 ∧ 0x90 ≤ b1 ∧ b1 ≤ 0xBF) ∨
            (b = 0xF4 ∧ 0x80 ≤ b1 ∧ b1 ≤ 0x8F) ∨
            (b ≠ 0xF0 ∧ b ≠ 0xF4 ∧ 0x80 ≤ b1 ∧ b1 ≤ 0xBF)) ∧
           0x80 ≤ b2 ∧ b2 ≤ 0xBF ∧ 0x80 ≤ b3 ∧ b3 ≤ 0xBF then
          (utf8_decode r).map
            (((b - 0xF0) * 262144 + (b1 - 0x80) * 4096 + (b2 - 0x80) * 64 + (b3 - 0x80)) :: ·)
        else none
      | _ => none
    else none

/-- The per-component body of the result loop in
`Templates.unpack_message`: plural values are joined (string fields decode
as UTF-8, bytes fields stay raw, anything else keeps the `""` initializer);
a single value is passed through `int(...)` for `uint64_t`/`uint8_t` fields
and kept raw otherwise; an empty group would raise `IndexError`
(`values[0]`). -/
def unpack_component (tmpl : Template) (mask : List Nat) (data : List SVal)
    (idx : Nat) : Except PyErr PyVal :=
  match template_item_type tmpl idx with
  | none => .error .indexError
  | some ty =>
    let vs := values_at mask data idx
    if vs.length > 1 then
      if ty = "str" then
        match join_c vs with
        | .error e => .error e
        | .ok bs =>
          match utf8_decode bs with
          | some cs => .ok (.pyStr cs)
          | none => .error .unicodeError
      else if ty = "bytes" then (join_c vs).map .pyBytes
      else .ok (.pyStr [])
    else
      match vs with
      | [] => .error .indexError
      | v :: _ =>
        if ty = "uint64_t" ∨ ty = "uint8_t" then
          match v with
          | .i n => .ok (.pyInt n)
          | .c _ => .error .typeError
        else
          .ok (match v with | .i n => .pyInt n | .c b => .pyBytes [b])

/-- `Templates.unpack_message`. -/
def unpack_message (message : List Nat) : Except PyErr (List PyVal) :=
  match generate_struct_decode message with
  | .error e => .error e
  | .ok (toks, mask) =>
    match struct_unpack toks message with
    | .error e => .error e
    | .ok data =>
      match templates (message.headD 0) with
      | none => .error .assertError
      | some tmpl =>
        (List.range (mask_max mask + 1)).mapM (unpack_component tmpl mask data)

/-- `Templates.explain_message`: the template name (the dict's `"Name"`
entry) and each field name bound to its decoded value, or to `None` when
the decoded array is too short (the absent-field marker). -/
def explain_message (message : List Nat) :
    Except PyErr (String × List (String × Option PyVal)) :=
  match unpack_message message with
  | .error e => .error e
  | .ok arr =>
    match templates (message.headD 0) with
    | none => .error .assertError
    | some tmpl =>
      .ok (tmpl.tname,
        (List.range tmpl.fields.length).map (fun j =>
          (((tmpl.fields.get? j).map Field.fname).getD "",
           if arr.length > j + 1 then arr.get? (j + 1) else none)))

/-! ## Link session (`xbee.py`, correlation and pacing)

A decoded frame is the list `unpack_message` returns.  The inbound side of
`read_until_frame_id` is modelled by the ordered list of decoded frames
that become available before its deadline: the loop reads them one by one
(each `read()` call decodes one buffered frame) until the correlation test
succeeds or the list (the time window) is exhausted. -/

/-- Python `frame_id == target_id` for the value found at index 1: an int
compares numerically, any other value compares unequal. -/
def py_eq_int (v : PyVal) (t : Int) : Bool :=
  match v with
  | .pyInt n => n == t
  | _ => false

/-- `this_frame[1]`, the value the loop uses as the correlation field.
Decoded frames always have at least two entries, so the default is never
reached on real frames. -/
def frame_corr (f : List PyVal) : PyVal := f.getD 1 (.pyStr [])

/-- `this_frame[0]`, the decoded API ID. -/
def frame_tag (f : List PyVal) : PyVal := f.getD 0 (.pyStr [])

/-- The reading loop of `XBee.read_until_frame_id` once it is entered:
append each frame, stop after a frame whose index-1 value equals the
target. -/
def read_until_go (target : Int) : List (List PyVal) → List (List PyVal)
  | [] => []
  | f :: rest =>
    f :: (if py_eq_int (frame_corr f) target then [] else read_until_go target rest)

/-- `XBee.read_until_frame_id`: the loop variable `frame_id` starts at 0,
so a target of 0 fails the `target_id != frame_id` test immediately and
nothing is ever read. -/
def read_until_frame_id (target : Int) (arrivals : List (List PyVal)) :
    List (List PyVal) :=
  if target = 0 then [] else read_until_go target arrivals

/-- The strict scan of `XBee.discard_until_frame_id`: some frame before the
last one is neither an `0x8B` frame nor tagged with the target id. -/
def stray_scan (target : Int) (r : List (List PyVal)) : Bool :=
  (List.range (r.length - 1)).any (fun i =>
    !py_eq_int (frame_tag (r.getD i [])) 0x8B &&
    !py_eq_int (frame_corr (r.getD i [])) target)

/-- `XBee.discard_until_frame_id`: gather frames, optionally raise
`Exception("Discarded valid packet!")` on stray traffic, and return the
last frame (or the empty list when nothing arrived). -/
def discard_until_frame_id (target : Int) (strict : Bool)
    (arrivals : List (List PyVal)) : Except PyErr (List PyVal) :=
  let r := read_until_frame_id target arrivals
  if r.isEmpty then .ok []
  else if strict && stray_scan target r then .error .unexpectedFrame
  else .ok (r.getLastD [])

/-! ### Write pacing (`XBee.write`)

The busy-wait `while time.time() < max(last_message + frame_delay,
motor_unblocked): pass` is modelled on an abstract rational clock: the
loop exits, and `conn.write` runs, at the first instant that is both after
the call entered the loop and not before the deadline; `last_message` is
then set to a clock reading taken after the write completes. -/

/-- `self.frame_delay = 0.010`. -/
def frame_delay : ℚ := 1 / 100

/-- The pacing state mutated by `XBee.write`. -/
structure WriteState where
  last_message : ℚ
  motor_unblocked : ℚ

/-- The instant at which `XBee.write` hands the frame to the transport,
when the busy-wait is entered at `t_enter`. -/
def write_instant (st : WriteState) (t_enter : ℚ) : ℚ :=
  max t_enter (max (st.last_message + frame_delay) st.motor_unblocked)

/-- The state after `XBee.write` returns: `last_message` is the clock
reading `t_done` taken just after the transport write. -/
def write_update (st : WriteState) (t_done : ℚ) : WriteState :=
  { st with last_message := t_done }

/-! ## Notions used to state the claims -/

/-- The claim-level notion of un-escaping `n` logical bytes from a raw
stream, leaving a remainder: each logical byte is a literal raw byte, or —
when the raw byte is `0x7D` — the following raw byte XOR `0x20`. -/
inductive Unesc : Nat → List Nat → List Nat → List Nat → Prop
  | done (s : List Nat) : Unesc 0 s [] s
  | lit {n : Nat} {b : Nat} {s out r : List Nat} :
      b ≠ 0x7D → Unesc n s out r → Unesc (n + 1) (b :: s) (b :: out) r
  | esc {n : Nat} {b : Nat} {s out r : List Nat} :
      Unesc n s out r → Unesc (n + 1) (0x7D :: b :: s) ((b ^^^ 0x20) :: out) r

/-- A legal value for one schema field: the canonical typed assignment —
an in-range int for the integer types, a string of the declared length
made of ASCII code points for `str`, a non-empty byte string of the
declared length (any length when variable) for `bytes`. -/
def legal_val (f : Field) (v : PyVal) : Bool :=
  if f.ftype = "uint8_t" then
    match v with | .pyInt n => decide (0 ≤ n ∧ n < 256) | _ => false
  else if f.ftype = "uint16_t" then
    match v with | .pyInt n => decide (0 ≤ n ∧ n < 65536) | _ => false
  else if f.ftype = "uint64_t" then
    match v with | .pyInt n => decide (0 ≤ n ∧ n < 2 ^ 64) | _ => false
  else if f.ftype = "str" then
    match v with
    | .pyStr cs => (f.flen == -1 || (cs.length : Int) == f.flen) && cs.all (· < 128)
    | _ => false
  else if f.ftype = "bytes" then
    match v with
    | .pyBytes bs =>
      !bs.isEmpty && bs.all (· < 256) && (f.flen == -1 || (bs.length : Int) == f.flen)
    | _ => false
  else false

/-- A legal ordered argument assignment for a registered schema: the type
tag first, then one legal value per field, in declaration order. -/
def legal_args (t : Nat) (tmpl : Template) (args : List PyVal) : Bool :=
  args.head? == some (.pyInt t) &&
  args.length == tmpl.fields.length + 1 &&
  (tmpl.fields.zip args.tail).all (fun p => legal_val p.1 p.2)

/-- Schemas with no string-typed field (every field is an integer type or
`bytes`). -/
def str_free (tmpl : Template) : Bool :=
  tmpl.fields.all (fun f => f.ftype != "str")

/-- Whether the last field of a schema carries the `"optional"` marker. -/
def last_field_optional (tmpl : Template) : Bool :=
  match tmpl.fields.getLast? with
  | some f => f.opt == some "optional"
  | none => false

/-- The fixed-field byte length of a schema whose last field is
variable/optional: the last field's documented offset minus the 3 framing
bytes that precede the payload in the documentation's numbering. -/
def fixed_len (tmpl : Template) : Int :=
  match tmpl.fields.getLast? with
  | some f => f.start - 3
  | none => 0

/-! ## Codec lemmas -/

theorem xescape_foldl (l : List Nat) (acc : List Nat) :
    l.foldl (fun escaped b => escaped ++ esc1 b) acc = acc ++ l.flatMap esc1 := by
  induction l generalizing acc with
  | nil => simp
  | cons b l ih => simp [List.foldl_cons, ih, List.append_assoc]

theorem xescape_eq_flatMap (l : List Nat) : xescape l = l.flatMap esc1 := by
  simpa using xescape_foldl l []

theorem reservedByte_false_ne (b : Nat) (h : reservedByte b = false) : b ≠ 0x7D := by
  simp only [reservedByte, Bool.or_eq_false_iff, beq_eq_false_iff_ne, ne_eq] at h
  omega

/-- Un-escaping inverts escaping: reading back `l.length` logical bytes from
the escaped form of `l` yields `l` and leaves the rest of the stream. -/
theorem read_logical_xescape (l rest : List Nat) :
    read_logical l.length (xescape l ++ rest) = .ok (l, rest) := by
  rw [xescape_eq_flatMap]
  induction l with
  | nil => simp [read_logical]
  | cons b l ih =>
    by_cases hb : reservedByte b
    · have hbe : esc1 b = [0x7D, b ^^^ 0x20] := by simp [esc1, hb]
      simp [List.flatMap_cons, hbe, read_logical, ih, Except.map,
        Nat.xor_assoc, Nat.xor_self, Nat.xor_zero]
    · have hne : b ≠ 0x7D := reservedByte_false_ne b (by simpa using hb)
      have hbe : esc1 b = [b] := by simp [esc1, hb]
      simp [List.flatMap_cons, hbe, read_logical, hne, ih, Except.map]

theorem length_lt_two_pow_sixteen_high (n : Nat) (h : n < 65536) :
    (n >>> 8) &&& 0xFF = n / 256 := by
  rw [Nat.and_pow_two_sub_one_eq_mod _ 8, Nat.shiftRight_eq_div_pow]
  exact Nat.mod_eq_of_lt (by omega)

theorem length_low_byte (n : Nat) : n &&& 0xFF = n % 256 :=
  Nat.and_pow_two_sub_one_eq_mod n 8

/-- Decoding inverts encoding: for any payload whose length fits in the
16-bit length field, reading back the prepared frame returns the payload. -/
theorem xbee_read_prepare_write (m : List Nat) (h : m.length < 65536) :
    xbee_read (prepare_write m) = .ok (some m) := by
  have hlen : ((m.length >>> 8 &&& 0xFF) <<< 8) + (m.length &&& 0xFF) + 1
      = (m ++ [generate_checksum m]).length := by
    rw [length_lt_two_pow_sixteen_high _ h, length_low_byte, Nat.shiftLeft_eq]
    simp only [List.length_append, List.length_cons, List.length_nil]
    omega
  have key : read_logical (((m.length >>> 8 &&& 0xFF) <<< 8) + (m.length &&& 0xFF) + 1)
      (xescape (m ++ [generate_checksum m]))
      = .ok (m ++ [generate_checksum m], []) := by
    rw [hlen]
    simpa using read_logical_xescape (m ++ [generate_checksum m]) []
  have hval : validate_checksum (m ++ [generate_checksum m]) = true := by
    simp [validate_checksum, List.dropLast_concat]
  simp [prepare_write, xbee_read, key, hval, List.dropLast_concat]

theorem esc1_eq (b : Nat) :
    esc1 b = if b = 0x7E ∨ b = 0x7D ∨ b = 0x11 ∨ b = 0x13
      then [0x7D, b ^^^ 0x20] else [b] := by
  by_cases hb : b = 0x7E ∨ b = 0x7D ∨ b = 0x11 ∨ b = 0x13
  · rw [if_pos hb]
    rcases hb with h | h | h | h <;> subst h <;> rfl
  · rw [if_neg hb]
    push_neg at hb
    obtain ⟨h1, h2, h3, h4⟩ := hb
    simp [esc1, reservedByte, h1, h2, h3, h4]

/-- Claim C2: the produced wire frame is exactly the delimiter, the
big-endian 16-bit payload length, and the escaped form of payload plus
checksum byte `0xFF - (sum(payload) & 0xFF)`, where escaping replaces each
of `0x7E`, `0x7D`, `0x11`, `0x13` by `0x7D` followed by the byte XOR
`0x20`. -/
theorem c2_encode_structure (msg : List Nat) (h : msg.length < 65536) :
    prepare_write msg =
      0x7E :: (msg.length / 256) :: (msg.length % 256) ::
        (msg ++ [0xFF - msg.sum % 256]).flatMap
          (fun b => if b = 0x7E ∨ b = 0x7D ∨ b = 0x11 ∨ b = 0x13
            then [0x7D, b ^^^ 0x20] else [b]) := by
  have he : esc1 = fun b =>
      if b = 0x7E ∨ b = 0x7D ∨ b = 0x11 ∨ b = 0x13
        then [0x7D, b ^^^ 0x20] else [b] := funext esc1_eq
  rw [prepare_write, xescape_eq_flatMap, length_lt_two_pow_sixteen_high _ h,
    length_low_byte, he]
  rfl

/-- Claim C2 witness. -/
theorem c2_encode_structure_witness :
    prepare_write [0x7E, 0x40] =
      0x7E :: (2 / 256) :: (2 % 256) ::
        ([0x7E, 0x40] ++ [0xFF - (0x7E + 0x40) % 256]).flatMap
          (fun b => if b = 0x7E ∨ b = 0x7D ∨ b = 0x11 ∨ b = 0x13
            then [0x7D, b ^^^ 0x20] else [b]) := by
  have := c2_encode_structure [0x7E, 0x40] (by decide)
  simpa using this

/-- Claim C4 counterexample: for the one-byte payload `[0x00]` the 16-bit
length field of the produced frame holds 1 (the payload byte count), not
`len(payload) + 1 = 2` as the claim states. -/
theorem c4_counterexample :
    256 * ((prepare_write [0x00]).getD 1 0) + (prepare_write [0x00]).getD 2 0
      ≠ [0x00].length + 1 := by decide

/-- Claim C4 (amended): the 16-bit big-endian length field of the produced
wire frame equals the payload byte count, the checksum excluded. -/
theorem c4_length_field (msg : List Nat) (h : msg.length < 65536) :
    256 * ((prepare_write msg).getD 1 0) + (prepare_write msg).getD 2 0
      = msg.length := by
  simp only [prepare_write, List.getD_cons_succ, List.getD_cons_zero]
  rw [length_lt_two_pow_sixteen_high _ h, length_low_byte]
  omega

/-- Claim C4 witness. -/
theorem c4_length_field_witness :
    256 * ((prepare_write [1, 2, 3]).getD 1 0) + (prepare_write [1, 2, 3]).getD 2 0
      = [1, 2, 3].length :=
  c4_length_field [1, 2, 3] (by decide)

/-- Claim C9: a transport write never happens before
`max(lastWriteTimestamp + minInterFrameDelay, deviceBusyUntil)`, and since
`last_message` is set to a clock reading taken after the write, the write
instants of two consecutive calls are at least `frame_delay` apart. -/
theorem c9_write_pacing (st : WriteState) (t1 d1 t2 : ℚ)
    (h : write_instant st t1 ≤ d1) :
    st.last_message + frame_delay ≤ write_instant st t1 ∧
    st.motor_unblocked ≤ write_instant st t1 ∧
    write_instant st t1 + frame_delay ≤ write_instant (write_update st d1) t2 := by
  refine ⟨?_, ?_, ?_⟩
  · exact le_trans (le_max_left _ _) (le_max_right _ _)
  · exact le_trans (le_max_right _ _) (le_max_right _ _)
  · have h1 : write_instant (write_update st d1) t2 ≥ d1 + frame_delay :=
      le_trans (le_max_left _ _) (le_max_right _ _)
    have h2 : write_instant st t1 + frame_delay ≤ d1 + frame_delay := by
      exact add_le_add_right h frame_delay
    exact le_trans h2 h1

/-- Claim C9 witness. -/
theorem c9_write_pacing_witness :
    write_instant ⟨0, 0⟩ 0 ≤ 1 / 100 ∧
    ((0 : ℚ) + frame_delay ≤ write_instant ⟨0, 0⟩ 0 ∧
     (0 : ℚ) ≤ write_instant ⟨0, 0⟩ 0 ∧
     write_instant ⟨0, 0⟩ 0 + frame_delay ≤ write_instant (write_update ⟨0, 0⟩ (1 / 100)) 0) := by
  constructor
  · simp [write_instant, frame_delay]
  · exact c9_write_pacing ⟨0, 0⟩ 0 (1 / 100) 0 (by simp [write_instant, frame_delay])

/-! ## Decode characterization (C3) -/

theorem read_logical_succ_cons (n b : Nat) (s : List Nat) :
    read_logical (n + 1) (b :: s) =
      if b = 0x7D then
        match s with
        | [] => .error .readTimeout
        | b2 :: s2 => (read_logical n s2).map (fun r => ((b2 ^^^ 0x20) :: r.1, r.2))
      else (read_logical n s).map (fun r => (b :: r.1, r.2)) := rfl

theorem xbee_read_cons (d : Nat) (rest : List Nat) :
    xbee_read (d :: rest) =
      if d = 0x7E then
        match rest with
        | hi :: lo :: body =>
          match read_logical ((hi <<< 8) + lo + 1) body with
          | .error e => .error e
          | .ok (msg, _) =>
            if validate_checksum msg then .ok (some msg.dropLast)
            else .error .checksumMismatch
        | _ => .error .readTimeout
      else .error .syncLost := rfl

theorem xbee_read_nil1 : xbee_read [0x7E] = .error .readTimeout := rfl

theorem xbee_read_nil2 (hi : Nat) : xbee_read [0x7E, hi] = .error .readTimeout := rfl

theorem xbee_read_full (hi lo : Nat) (body : List Nat) :
    xbee_read (0x7E :: hi :: lo :: body) =
      match read_logical ((hi <<< 8) + lo + 1) body with
      | .error e => .error e
      | .ok (msg, _) =>
        if validate_checksum msg then .ok (some msg.dropLast)
        else .error .checksumMismatch := rfl

theorem read_logical_of_unesc {n : Nat} {s out r : List Nat}
    (h : Unesc n s out r) : read_logical n s = .ok (out, r) := by
  induction h with
  | done s => simp [read_logical]
  | lit hb _ ih => simp [read_logical_succ_cons, hb, ih, Except.map]
  | esc _ ih => simp [read_logical_succ_cons, ih, Except.map]

/-- Totality of the logical-byte loop: it either succeeds, with the
un-escaping relation holding, or times out, and then no un-escaping
derivation exists. -/
theorem read_logical_spec : ∀ (n : Nat) (s : List Nat),
    (∃ out r, read_logical n s = .ok (out, r) ∧ Unesc n s out r) ∨
    (read_logical n s = .error .readTimeout ∧ ∀ out r, ¬ Unesc n s out r) := by
  intro n
  induction n with
  | zero => exact fun s => Or.inl ⟨[], s, rfl, Unesc.done s⟩
  | succ n ih =>
    intro s
    rcases s with _ | ⟨b, s⟩
    · refine Or.inr ⟨rfl, fun out r hu => ?_⟩
      cases hu
    · by_cases hb : b = 0x7D
      · subst hb
        rcases s with _ | ⟨b2, s2⟩
        · refine Or.inr ⟨rfl, fun out r hu => ?_⟩
          cases hu with
          | lit hne _ => exact hne rfl
        · rcases ih s2 with ⟨out, r, hok, hu⟩ | ⟨herr, hnone⟩
          · exact Or.inl ⟨(b2 ^^^ 0x20) :: out, r,
              by simp [read_logical_succ_cons, hok, Except.map], Unesc.esc hu⟩
          · refine Or.inr ⟨by simp [read_logical_succ_cons, herr, Except.map], ?_⟩
            intro out r hu
            cases hu with
            | lit hne _ => exact hne rfl
            | esc hu2 => exact hnone _ _ hu2
      · rcases ih s with ⟨out, r, hok, hu⟩ | ⟨herr, hnone⟩
        · exact Or.inl ⟨b :: out, r,
            by simp [read_logical_succ_cons, hb, hok, Except.map], Unesc.lit hb hu⟩
        · refine Or.inr ⟨by simp [read_logical_succ_cons, hb, herr, Except.map], ?_⟩
          intro out r hu
          cases hu with
          | lit _ hu2 => exact hnone _ _ hu2
          | esc _ => exact hb rfl

theorem read_logical_err {n : Nat} {s : List Nat} {e : ReadErr}
    (h : read_logical n s = .error e) : e = .readTimeout := by
  rcases read_logical_spec n s with ⟨out, r, hok, _⟩ | ⟨herr, _⟩
  · rw [hok] at h; cases h
  · rw [herr] at h
    injection h with h2
    exact h2.symm

theorem read_logical_complete {n : Nat} {s out r : List Nat}
    (h : read_logical n s = .ok (out, r)) : Unesc n s out r := by
  rcases read_logical_spec n s with ⟨out2, r2, hok, hu⟩ | ⟨herr, _⟩
  · rw [hok] at h
    simp only [Except.ok.injEq, Prod.mk.injEq] at h
    obtain ⟨h1, h2⟩ := h
    subst h1
    subst h2
    exact hu
  · rw [herr] at h
    cases h

/-- Claim C3: on a non-empty stream, decode fails with `SyncLost` exactly
when the first byte is not `0x7E`; it fails with `ReadTimeout` when the
length header or a logical byte is cut short; after the two big-endian
length bytes it reads `L + 1` logical bytes (un-escaping `0x7D`-prefixed
pairs), fails with `ChecksumMismatch` exactly when
`0xFF - (sum of the first L logical bytes & 0xFF)` differs from the final
logical byte, and otherwise returns the `L` payload bytes. -/
theorem c3_decode_characterization (stream : List Nat) :
    (∀ d rest, stream = d :: rest →
      (xbee_read stream = .error .syncLost ↔ d ≠ 0x7E)) ∧
    (∀ rest, stream = 0x7E :: rest → rest.length < 2 →
      xbee_read stream = .error .readTimeout) ∧
    (∀ hi lo body out r, stream = 0x7E :: hi :: lo :: body →
      Unesc (hi * 256 + lo + 1) body out r →
      xbee_read stream =
        (if 0xFF - out.dropLast.sum % 256 = out.getLastD 0
          then .ok (some out.dropLast) else .error .checksumMismatch)) ∧
    (∀ hi lo body, stream = 0x7E :: hi :: lo :: body →
      (∀ out r, ¬ Unesc (hi * 256 + lo + 1) body out r) →
      xbee_read stream = .error .readTimeout) := by
  have hshift : ∀ hi lo : Nat, (hi <<< 8) + lo + 1 = hi * 256 + lo + 1 := by
    intro hi lo
    rw [Nat.shiftLeft_eq]
  refine ⟨?_, ?_, ?_, ?_⟩
  · intro d rest hs
    subst hs
    constructor
    · intro herr hd
      subst hd
      rcases rest with _ | ⟨hi, _ | ⟨lo, body⟩⟩
      · rw [xbee_read_nil1] at herr
        simp at herr
      · rw [xbee_read_nil2] at herr
        simp at herr
      · cases hrl : read_logical ((hi <<< 8) + lo + 1) body with
        | error e =>
          have he := read_logical_err hrl
          subst he
          simp [xbee_read_full, hrl] at herr
        | ok v =>
          obtain ⟨msg, r2⟩ := v
          by_cases hv : validate_checksum msg
          · simp [xbee_read_full, hrl, hv] at herr
          · simp [xbee_read_full, hrl, hv] at herr
    · intro hd
      rw [xbee_read_cons, if_neg hd]
  · intro rest hs hlen
    subst hs
    rcases rest with _ | ⟨x, _ | ⟨y, z⟩⟩
    · exact xbee_read_nil1
    · exact xbee_read_nil2 x
    · simp at hlen
      omega
  · intro hi lo body out r hs hu
    subst hs
    have hrl : read_logical ((hi <<< 8) + lo + 1) body = .ok (out, r) := by
      rw [hshift]
      exact read_logical_of_unesc hu
    by_cases hv : 0xFF - out.dropLast.sum % 256 = out.getLastD 0
    · have hval : validate_checksum out = true := by
        simp only [validate_checksum, generate_checksum]
        exact beq_iff_eq.mpr hv
      simp [xbee_read_full, hrl, hval, hv]
    · have hval : validate_checksum out = false := by
        simp only [validate_checksum, generate_checksum]
        exact beq_eq_false_iff_ne.mpr hv
      have hv2 : ¬(0xFF - out.dropLast.sum % 256 = (out.getLast?).getD 0) := by
        rwa [List.getLastD_eq_getLast?] at hv
      simp [xbee_read_full, hrl, hval, hv2]
  · intro hi lo body hs hnone
    subst hs
    cases hrl : read_logical ((hi <<< 8) + lo + 1) body with
    | error e =>
      have he := read_logical_err hrl
      subst he
      simp [xbee_read_full, hrl]
    | ok v =>
      exfalso
      have hu : Unesc ((hi <<< 8) + lo + 1) body v.1 v.2 :=
        read_logical_complete (by rw [hrl])
      rw [hshift] at hu
      exact hnone v.1 v.2 hu

/-- Claim C3 witness: a stream with a bad delimiter loses sync; a complete
well-formed stream (length 1, one escaped payload byte `0x7D 0x5E ↦ 0x7E`,
checksum `0x81`) decodes to its payload. -/
theorem c3_decode_characterization_witness :
    xbee_read [0x00, 0x7E] = .error .syncLost ∧
    xbee_read [0x7E, 0x00, 0x01, 0x7D, 0x5E, 0x81] = .ok (some [0x7E]) := by
  constructor
  · exact ((c3_decode_characterization [0x00, 0x7E]).1 0x00 [0x7E] rfl).2 (by decide)
  · have hu : Unesc (0 * 256 + 1 + 1) [0x7D, 0x5E, 0x81] [0x7E, 0x81] [] := by
      have h1 : Unesc 0 ([] : List Nat) [] [] := Unesc.done []
      have h2 : Unesc 1 [0x81] [0x81] [] := Unesc.lit (by decide) h1
      have h3 : Unesc 2 [0x7D, 0x5E, 0x81] [0x5E ^^^ 0x20, 0x81] [] := Unesc.esc h2
      simpa using h3
    have := (c3_decode_characterization [0x7E, 0x00, 0x01, 0x7D, 0x5E, 0x81]).2.2.1
      0x00 0x01 [0x7D, 0x5E, 0x81] [0x7E, 0x81] [] rfl hu
    simpa using this

/-! ## Pack arity behavior (C6) -/

theorem template_item_type_oob (tmpl : Template) (i : Nat)
    (h1 : 1 ≤ i) (h2 : tmpl.fields.length + 1 ≤ i) :
    template_item_type tmpl i = none := by
  have hni : ¬(i = 0) := by omega
  have hlen : tmpl.fields.length ≤ i - 1 := by omega
  have hget : tmpl.fields.get? (i - 1) = none := List.get?_eq_none.mpr hlen
  unfold template_item_type
  rw [if_neg hni, hget]
  rfl

theorem template_item_type_in (tmpl : Template) (i : Nat)
    (h1 : 1 ≤ i) (h2 : i ≤ tmpl.fields.length) :
    ∃ ty, template_item_type tmpl i = some ty := by
  have hni : ¬(i = 0) := by omega
  have hlt : i - 1 < tmpl.fields.length := by omega
  unfold template_item_type
  rw [if_neg hni, List.get?_eq_get hlt]
  exact ⟨_, rfl⟩

theorem encode_toks_go_oob (tmpl : Template) (rest : List PyVal) (i : Nat)
    (hge : 1 ≤ i) (hle : i ≤ tmpl.fields.length + 1)
    (hbig : tmpl.fields.length + 1 < i + rest.length) :
    encode_toks_go tmpl i rest = .error .indexError := by
  induction rest generalizing i with
  | nil => simp at hbig; omega
  | cons a rs ih =>
    by_cases hi : i = tmpl.fields.length + 1
    · have hnone : template_item_type tmpl i = none :=
        template_item_type_oob tmpl i hge (by omega)
      simp [encode_toks_go, hnone]
    · obtain ⟨ty, hty⟩ := template_item_type_in tmpl i hge (by omega)
      have hrec : encode_toks_go tmpl (i + 1) rs = .error .indexError := by
        apply ih (i + 1) (by omega) (by omega)
        simp at hbig ⊢
        omega
      simp [encode_toks_go, hty, hrec]

/-- Claim C6 counterexample: `Pack(0x10, frameId=5)` supplies 2 arguments
for the 7-entry transmit-request schema, yet no error is raised — the
two-byte payload `[0x10, 0x05]` is silently produced. -/
theorem c6_counterexample :
    pack_message [.pyInt 0x10, .pyInt 5] = .ok [0x10, 0x05] ∧
    ([PyVal.pyInt 0x10, PyVal.pyInt 5].length : Nat)
      ≠ ((templates 0x10).map (fun t => t.fields.length + 1)).getD 0 := by
  constructor
  · rfl
  · decide

/-- Claim C6 (amended): Pack on an unregistered tag fails with the
registry assertion; Pack with more arguments than the schema has fields
fails with the field-lookup `IndexError`; but Pack with fewer arguments
than the schema has fields raises nothing and silently packs the supplied
prefix of the fields (shown for the transmit-request schema `0x10` with
only a frame id supplied). -/
theorem c6_pack_arity (t : Int) (args : List PyVal) (h0 : 0 ≤ t) (h1 : t < 256)
    (hhead : args.head? = some (.pyInt t)) :
    (templates t.toNat = none → pack_message args = .error .assertError) ∧
    (∀ tmpl, templates t.toNat = some tmpl → tmpl.fields.length + 1 < args.length →
      pack_message args = .error .indexError) ∧
    (∀ fid : Int, 0 ≤ fid → fid < 256 →
      pack_message [.pyInt 0x10, .pyInt fid] = .ok [0x10, fid.toNat]) := by
  obtain ⟨a0, rest, rfl⟩ : ∃ a0 rest, args = a0 :: rest := by
    cases args with
    | nil => simp at hhead
    | cons a rest => exact ⟨a, rest, rfl⟩
  have ha0 : a0 = .pyInt t := by simpa using hhead
  subst ha0
  have hbyte : asByte (.pyInt t) = .ok t.toNat := by
    simp [asByte, h0, h1]
  refine ⟨?_, ?_, ?_⟩
  · intro hnone
    simp [pack_message, hbyte, hnone]
  · intro tmpl hsome hbig
    have htoks : generate_struct_encode (.pyInt t :: rest) = .error .indexError := by
      have := encode_toks_go_oob tmpl rest 1 (by omega) (by omega)
        (by simp at hbig ⊢; omega)
      simp [generate_struct_encode, hbyte, hsome, this]
    simp [pack_message, hbyte, hsome, htoks]
  · intro fid hf0 hf1
    have hred : pack_message [.pyInt 0x10, .pyInt fid]
        = struct_pack [.tB, .tB] [.i 0x10, .i fid] := rfl
    rw [hred]
    have hsp : struct_pack [.tB, .tB] [.i 0x10, .i fid] = .ok [0x10, fid.toNat] := by
      simp [struct_pack, hf0, hf1, Except.map]
    exact hsp

/-- Claim C6 witness. -/
theorem c6_pack_arity_witness :
    pack_message [.pyInt 0x55, .pyInt 1] = .error .assertError ∧
    pack_message [.pyInt 0x8A, .pyInt 1, .pyInt 2] = .error .indexError ∧
    pack_message [.pyInt 0x10, .pyInt 5] = .ok [0x10, 5] := by
  refine ⟨?_, ?_, ?_⟩
  · exact (c6_pack_arity 0x55 [.pyInt 0x55, .pyInt 1] (by decide) (by decide) rfl).1
      (by decide)
  · exact (c6_pack_arity 0x8A [.pyInt 0x8A, .pyInt 1, .pyInt 2] (by decide) (by decide)
      rfl).2.1 _ rfl (by decide)
  · have := (c6_pack_arity 0x10 [.pyInt 0x10, .pyInt 5] (by decide) (by decide) rfl).2.2
      5 (by decide) (by decide)
    simpa using this

/-! ## Correlation loop (C7, C8, C10) -/

/-- Claim C7 counterexample: with target id 0 and one pending frame whose
correlation value (1) does not match, the claim's timeout path requires
every frame read during the wait to be returned — but the loop exits
immediately (its correlation variable is initialized to 0) and returns
nothing. -/
theorem c7_counterexample :
    (∀ f ∈ ([[PyVal.pyInt 0x8B, PyVal.pyInt 1]] : List (List PyVal)),
      py_eq_int (frame_corr f) 0 = false) ∧
    read_until_frame_id 0 [[PyVal.pyInt 0x8B, PyVal.pyInt 1]]
      ≠ [[PyVal.pyInt 0x8B, PyVal.pyInt 1]] := by
  constructor
  · intro f hf
    simp at hf
    subst hf
    rfl
  · intro h
    simp [read_until_frame_id] at h

/-- Claim C7 (amended): for every nonzero target id, the wait loop returns
the longest prefix of the arriving frames up to and including the first
frame whose index-1 value equals the target (all frames when none
matches — the timeout path); for target id 0 the loop's correlation
variable starts equal to the target, the body never runs, and the empty
list is returned regardless of pending frames. -/
theorem c7_await_frames (target : Int) (arrivals : List (List PyVal)) :
    (target = 0 → read_until_frame_id target arrivals = []) ∧
    (target ≠ 0 →
      read_until_frame_id target arrivals =
        arrivals.takeWhile (fun f => !py_eq_int (frame_corr f) target) ++
        (arrivals.dropWhile (fun f => !py_eq_int (frame_corr f) target)).take 1) := by
  constructor
  · intro h
    simp [read_until_frame_id, h]
  · intro h
    rw [read_until_frame_id, if_neg h]
    induction arrivals with
    | nil => rfl
    | cons f rest ih =>
      by_cases hm : py_eq_int (frame_corr f) target
      · simp [read_until_go, hm, List.takeWhile_cons, List.dropWhile_cons]
      · simp only [read_until_go, hm, if_neg, List.takeWhile_cons, List.dropWhile_cons]
        simp [hm, ih]

/-- Claim C7 witness: target 5, one non-matching then one matching frame,
then a further frame that is not read. -/
theorem c7_await_frames_witness :
    (5 : Int) ≠ 0 ∧
    read_until_frame_id 5 [[PyVal.pyInt 0x8A, PyVal.pyInt 1],
        [PyVal.pyInt 0x8B, PyVal.pyInt 5], [PyVal.pyInt 0x8B, PyVal.pyInt 9]] =
      ([[PyVal.pyInt 0x8A, PyVal.pyInt 1],
        [PyVal.pyInt 0x8B, PyVal.pyInt 5], [PyVal.pyInt 0x8B, PyVal.pyInt 9]] :
        List (List PyVal)).takeWhile (fun f => !py_eq_int (frame_corr f) 5) ++
      (([[PyVal.pyInt 0x8A, PyVal.pyInt 1],
        [PyVal.pyInt 0x8B, PyVal.pyInt 5], [PyVal.pyInt 0x8B, PyVal.pyInt 9]] :
        List (List PyVal)).dropWhile (fun f => !py_eq_int (frame_corr f) 5)).take 1 :=
  ⟨by decide,
   (c7_await_frames 5 [[PyVal.pyInt 0x8A, PyVal.pyInt 1],
      [PyVal.pyInt 0x8B, PyVal.pyInt 5], [PyVal.pyInt 0x8B, PyVal.pyInt 9]]).2
     (by decide)⟩

theorem get?_eq_some_getD (r : List (List PyVal)) (i : Nat) (h : i < r.length) :
    r.get? i = some (r.getD i []) := by
  cases hg : r.get? i with
  | none => exact absurd (List.get?_eq_none.mp hg) (by omega)
  | some x => rw [List.getD_eq_getD_get?, hg]; rfl

theorem stray_scan_iff (target : Int) (r : List (List PyVal)) :
    stray_scan target r = true ↔
      ∃ i f, r.get? i = some f ∧ i + 1 < r.length ∧
        py_eq_int (frame_tag f) 0x8B = false ∧
        py_eq_int (frame_corr f) target = false := by
  unfold stray_scan
  rw [List.any_eq_true]
  constructor
  · rintro ⟨i, hi, hcond⟩
    rw [List.mem_range] at hi
    have hlt : i < r.length := by omega
    rw [Bool.and_eq_true, Bool.not_eq_true', Bool.not_eq_true'] at hcond
    exact ⟨i, r.getD i [], get?_eq_some_getD r i hlt, by omega, hcond.1, hcond.2⟩
  · rintro ⟨i, f, hget, hlen, h8, hcorr⟩
    refine ⟨i, List.mem_range.mpr (by omega), ?_⟩
    have hfd : r.getD i [] = f := by
      rw [List.getD_eq_getD_get?, hget]
      rfl
    rw [hfd, Bool.and_eq_true, Bool.not_eq_true', Bool.not_eq_true']
    exact ⟨h8, hcorr⟩

/-- Claim C8: DiscardUntilFrameId returns the last collected frame (empty
when nothing arrived) and, in strict mode, fails with the unexpected-frame
exception exactly when some collected frame other than the last is neither
an `0x8B` transmit-status frame nor tagged with the target id. -/
theorem c8_discard_semantics (target : Int) (strict : Bool)
    (arrivals : List (List PyVal)) :
    (read_until_frame_id target arrivals = [] →
      discard_until_frame_id target strict arrivals = .ok []) ∧
    (read_until_frame_id target arrivals ≠ [] →
      ((discard_until_frame_id target strict arrivals = .error .unexpectedFrame ↔
        strict = true ∧ ∃ i f,
          (read_until_frame_id target arrivals).get? i = some f ∧
          i + 1 < (read_until_frame_id target arrivals).length ∧
          py_eq_int (frame_tag f) 0x8B = false ∧
          py_eq_int (frame_corr f) target = false) ∧
       (¬(strict = true ∧ stray_scan target (read_until_frame_id target arrivals) = true) →
        discard_until_frame_id target strict arrivals =
          .ok ((read_until_frame_id target arrivals).getLastD [])))) := by
  constructor
  · intro hempty
    simp [discard_until_frame_id, hempty]
  · intro hne
    have hie : (read_until_frame_id target arrivals).isEmpty = false := by
      rw [List.isEmpty_eq_false_iff_exists_mem]
      cases hr : read_until_frame_id target arrivals with
      | nil => exact absurd hr hne
      | cons a l => exact ⟨a, by simp⟩
    constructor
    · constructor
      · intro herr
        by_cases hs : (strict && stray_scan target (read_until_frame_id target arrivals)) = true
        · rw [Bool.and_eq_true] at hs
          exact ⟨hs.1, (stray_scan_iff target _).mp hs.2⟩
        · exfalso
          simp [discard_until_frame_id, hie, hs] at herr
      · rintro ⟨hstrict, hex⟩
        have hscan := (stray_scan_iff target (read_until_frame_id target arrivals)).mpr hex
        simp [discard_until_frame_id, hie, hstrict, hscan]
    · intro hnot
      have hs : (strict && stray_scan target (read_until_frame_id target arrivals)) = false := by
        cases strict with
        | false => rfl
        | true =>
          rw [Bool.true_and]
          rcases hsc : stray_scan target (read_until_frame_id target arrivals) with _ | _
          · rfl
          · exact absurd ⟨rfl, hsc⟩ hnot
      simp [discard_until_frame_id, hie, hs]

/-- Claim C8 witness: a stray receive-packet frame before the matching
status frame trips strict mode; without it the last frame is returned. -/
theorem c8_discard_semantics_witness :
    read_until_frame_id 5 [[PyVal.pyInt 0x90, PyVal.pyInt 3],
      [PyVal.pyInt 0x8B, PyVal.pyInt 5]] ≠ [] ∧
    discard_until_frame_id 5 true [[PyVal.pyInt 0x90, PyVal.pyInt 3],
      [PyVal.pyInt 0x8B, PyVal.pyInt 5]] = .error .unexpectedFrame := by
  refine ⟨by decide, ?_⟩
  have h := ((c8_discard_semantics 5 true [[PyVal.pyInt 0x90, PyVal.pyInt 3],
    [PyVal.pyInt 0x8B, PyVal.pyInt 5]]).2 (by decide)).1.mpr
    ⟨rfl, 0, [PyVal.pyInt 0x90, PyVal.pyInt 3], by decide, by decide, rfl, rfl⟩
  exact h

/-- Claim C10: the wait loop correlates on index 1 of every decoded frame,
even for schemas without a Frame ID field: a modem-status (`0x8A`) frame
whose status byte equals the target, or a receive-packet (`0x90`) frame
whose source address equals the target, stops the wait early and is
returned by DiscardUntilFrameId as the presumed match. -/
theorem c10_correlation_misindex :
    unpack_message [0x8A, 0x02] = .ok [.pyInt 0x8A, .pyInt 2] ∧
    read_until_frame_id 2 [[.pyInt 0x8A, .pyInt 2], [.pyInt 0x8B, .pyInt 9]]
      = [[.pyInt 0x8A, .pyInt 2]] ∧
    discard_until_frame_id 2 false [[.pyInt 0x8A, .pyInt 2], [.pyInt 0x8B, .pyInt 9]]
      = .ok [.pyInt 0x8A, .pyInt 2] ∧
    unpack_message [0x90, 0, 0, 0, 0, 0, 0, 0, 2, 0, 0, 0, 0xAB]
      = .ok [.pyInt 0x90, .pyInt 2, .pyInt 0, .pyInt 0, .pyBytes [0xAB]] ∧
    read_until_frame_id 2 [[.pyInt 0x90, .pyInt 2, .pyInt 0, .pyInt 0, .pyBytes [0xAB]],
        [.pyInt 0x8B, .pyInt 9]]
      = [[.pyInt 0x90, .pyInt 2, .pyInt 0, .pyInt 0, .pyBytes [0xAB]]] ∧
    discard_until_frame_id 2 false
        [[.pyInt 0x90, .pyInt 2, .pyInt 0, .pyInt 0, .pyBytes [0xAB]],
         [.pyInt 0x8B, .pyInt 9]]
      = .ok [.pyInt 0x90, .pyInt 2, .pyInt 0, .pyInt 0, .pyBytes [0xAB]] :=
  ⟨rfl, rfl, rfl, rfl, rfl, rfl⟩

/-! ## Optional-field decode (C5) -/

theorem cons_of_length_succ {α : Type} (l : List α) (n : Nat) (h : l.length = n + 1) :
    ∃ a t, l = a :: t ∧ t.length = n := by
  cases l with
  | nil => simp at h
  | cons a t => exact ⟨a, t, rfl, by simpa using h⟩

theorem mapM_range_3_last (f : Nat → Except PyErr PyVal) (v0 v1 : PyVal)
    (h0 : f 0 = .ok v0) (h1 : f 1 = .ok v1) :
    (List.range 3).mapM f = (f 2).map (fun v => [v0, v1, v]) := by
  cases h2 : f 2 with
  | ok v =>
    simp [show List.range 3 = [0, 1, 2] from rfl, List.mapM, List.mapM.loop, h0, h1, h2,
      Except.map, Bind.bind, Except.bind, Pure.pure, Except.pure]
  | error e =>
    simp [show List.range 3 = [0, 1, 2] from rfl, List.mapM, List.mapM.loop, h0, h1, h2,
      Except.map, Bind.bind, Except.bind, Pure.pure, Except.pure]

theorem mapM_range_4_mid (f : Nat → Except PyErr PyVal) (v0 v1 v3 : PyVal)
    (h0 : f 0 = .ok v0) (h1 : f 1 = .ok v1) (h3 : f 3 = .ok v3) :
    (List.range 4).mapM f = (f 2).map (fun v => [v0, v1, v, v3]) := by
  cases h2 : f 2 with
  | ok v =>
    simp [show List.range 4 = [0, 1, 2, 3] from rfl, List.mapM, List.mapM.loop, h0, h1, h2, h3,
      Except.map, Bind.bind, Except.bind, Pure.pure, Except.pure]
  | error e =>
    simp [show List.range 4 = [0, 1, 2, 3] from rfl, List.mapM, List.mapM.loop, h0, h1, h2, h3,
      Except.map, Bind.bind, Except.bind, Pure.pure, Except.pure]

theorem mapM_range_6_last (f : Nat → Except PyErr PyVal) (v0 v1 v2 v3 v4 : PyVal)
    (h0 : f 0 = .ok v0) (h1 : f 1 = .ok v1) (h2 : f 2 = .ok v2)
    (h3 : f 3 = .ok v3) (h4 : f 4 = .ok v4) :
    (List.range 6).mapM f = (f 5).map (fun v => [v0, v1, v2, v3, v4, v]) := by
  cases h5 : f 5 with
  | ok v =>
    simp [show List.range 6 = [0, 1, 2, 3, 4, 5] from rfl, List.mapM, List.mapM.loop, h0, h1,
      h2, h3, h4, h5, Except.map, Bind.bind, Except.bind, Pure.pure, Except.pure]
  | error e =>
    simp [show List.range 6 = [0, 1, 2, 3, 4, 5] from rfl, List.mapM, List.mapM.loop, h0, h1,
      h2, h3, h4, h5, Except.map, Bind.bind, Except.bind, Pure.pure, Except.pure]

theorem c5aux08 (b c1 c2 : Nat) (arr : List PyVal)
    (hunp : unpack_message [8, b, c1, c2] = .ok arr) :
    arr.length = 3 ∧ ∃ pairs, explain_message [8, b, c1, c2] =
      .ok ("AT Command Frame", pairs) ∧
      pairs.getLast? = some ("Parameter Value", none) := by
  have hunp0 := hunp
  rw [show unpack_message [8, b, c1, c2] = (List.range 3).mapM
      (unpack_component ⟨"AT Command Frame",
        [F "Frame ID" 4 1 "uint8_t", F "AT Command" 5 2 "str",
         FO "Parameter Value" 7 (-1) "bytes" "optional"]⟩
        [0, 1, 2, 2] [.i 8, .i (b : Int), .c c1, .c c2]) from rfl,
    mapM_range_3_last _ (PyVal.pyInt 8) (PyVal.pyInt (b : Int)) rfl rfl,
    show unpack_component ⟨"AT Command Frame",
        [F "Frame ID" 4 1 "uint8_t", F "AT Command" 5 2 "str",
         FO "Parameter Value" 7 (-1) "bytes" "optional"]⟩
        [0, 1, 2, 2] [.i 8, .i (b : Int), .c c1, .c c2] 2
      = (match utf8_decode [c1, c2] with
         | some cs => Except.ok (PyVal.pyStr cs)
         | none => Except.error PyErr.unicodeError) from rfl] at hunp
  cases hu : utf8_decode [c1, c2] with
  | none =>
    rw [hu] at hunp
    simp [Except.map] at hunp
  | some cs =>
    rw [hu] at hunp
    simp only [Except.map, Except.ok.injEq] at hunp
    subst hunp
    refine ⟨rfl, [("Frame ID", some (PyVal.pyInt (b : Int))),
      ("AT Command", some (PyVal.pyStr cs)), ("Parameter Value", none)], ?_, rfl⟩
    unfold explain_message
    rw [hunp0]
    rfl

theorem c5aux88 (b c1 c2 s : Nat) (arr : List PyVal)
    (hunp : unpack_message [0x88, b, c1, c2, s] = .ok arr) :
    arr.length = 4 ∧ ∃ pairs, explain_message [0x88, b, c1, c2, s] =
      .ok ("AT Command Response Frame", pairs) ∧
      pairs.getLast? = some ("Command Data", none) := by
  have hunp0 := hunp
  rw [show unpack_message [0x88, b, c1, c2, s] = (List.range 4).mapM
      (unpack_component ⟨"AT Command Response Frame",
        [F "Frame ID" 4 1 "uint8_t", F "AT Command" 5 2 "str",
         F "Command Status" 7 1 "uint8_t", FO "Command Data" 8 (-1) "bytes" "optional"]⟩
        [0, 1, 2, 2, 3] [.i 0x88, .i (b : Int), .c c1, .c c2, .i (s : Int)]) from rfl,
    mapM_range_4_mid _ (PyVal.pyInt 0x88) (PyVal.pyInt (b : Int)) (PyVal.pyInt (s : Int))
      rfl rfl rfl,
    show unpack_component ⟨"AT Command Response Frame",
        [F "Frame ID" 4 1 "uint8_t", F "AT Command" 5 2 "str",
         F "Command Status" 7 1 "uint8_t", FO "Command Data" 8 (-1) "bytes" "optional"]⟩
        [0, 1, 2, 2, 3] [.i 0x88, .i (b : Int), .c c1, .c c2, .i (s : Int)] 2
      = (match utf8_decode [c1, c2] with
         | some cs => Except.ok (PyVal.pyStr cs)
         | none => Except.error PyErr.unicodeError) from rfl] at hunp
  cases hu : utf8_decode [c1, c2] with
  | none =>
    rw [hu] at hunp
    simp [Except.map] at hunp
  | some cs =>
    rw [hu] at hunp
    simp only [Except.map, Except.ok.injEq] at hunp
    subst hunp
    refine ⟨rfl, [("Frame ID", some (PyVal.pyInt (b : Int))),
      ("AT Command", some (PyVal.pyStr cs)), ("Command Status", some (PyVal.pyInt (s : Int))),
      ("Command Data", none)], ?_, rfl⟩
    unfold explain_message
    rw [hunp0]
    rfl

theorem c5aux17 (b1 b2 b3 b4 b5 b6 b7 b8 b9 b10 b11 b12 b13 b14 : Nat) (arr : List PyVal)
    (hunp : unpack_message [0x17, b1, b2, b3, b4, b5, b6, b7, b8, b9, b10, b11, b12, b13, b14]
      = .ok arr) :
    arr.length = 6 ∧ ∃ pairs,
      explain_message [0x17, b1, b2, b3, b4, b5, b6, b7, b8, b9, b10, b11, b12, b13, b14] =
        .ok ("Remote AT Command Request Frame", pairs) ∧
      pairs.getLast? = some ("Command Parameter", none) := by
  have hunp0 := hunp
  rw [show unpack_message [0x17, b1, b2, b3, b4, b5, b6, b7, b8, b9, b10, b11, b12, b13, b14]
      = (List.range 6).mapM
      (unpack_component ⟨"Remote AT Command Request Frame",
        [F "Frame ID" 4 1 "uint8_t", F "Destination Address" 5 8 "uint64_t",
         F "Reserved" 13 2 "uint16_t", F "Remote Command Options" 15 1 "uint8_t",
         F "AT command" 16 2 "str", FO "Command Parameter" 18 (-1) "bytes" "optional"]⟩
        [0, 1, 2, 3, 4, 5, 5]
        [.i 0x17, .i (b1 : Int),
         .i ((((((((b2 : Int) * 256 + b3) * 256 + b4) * 256 + b5) * 256 + b6) * 256 + b7)
           * 256 + b8) * 256 + b9),
         .i ((b10 : Int) * 256 + b11), .i (b12 : Int), .c b13, .c b14]) from rfl,
    mapM_range_6_last _ (PyVal.pyInt 0x17) (PyVal.pyInt (b1 : Int))
      (PyVal.pyInt ((((((((b2 : Int) * 256 + b3) * 256 + b4) * 256 + b5) * 256 + b6)
        * 256 + b7) * 256 + b8) * 256 + b9))
      (PyVal.pyInt ((b10 : Int) * 256 + b11)) (PyVal.pyInt (b12 : Int))
      rfl rfl rfl rfl rfl,
    show unpack_component ⟨"Remote AT Command Request Frame",
        [F "Frame ID" 4 1 "uint8_t", F "Destination Address" 5 8 "uint64_t",
         F "Reserved" 13 2 "uint16_t", F "Remote Command Options" 15 1 "uint8_t",
         F "AT command" 16 2 "str", FO "Command Parameter" 18 (-1) "bytes" "optional"]⟩
        [0, 1, 2, 3, 4, 5, 5]
        [.i 0x17, .i (b1 : Int),
         .i ((((((((b2 : Int) * 256 + b3) * 256 + b4) * 256 + b5) * 256 + b6) * 256 + b7)
           * 256 + b8) * 256 + b9),
         .i ((b10 : Int) * 256 + b11), .i (b12 : Int), .c b13, .c b14] 5
      = (match utf8_decode [b13, b14] with
         | some cs => Except.ok (PyVal.pyStr cs)
         | none => Except.error PyErr.unicodeError) from rfl] at hunp
  cases hu : utf8_decode [b13, b14] with
  | none =>
    rw [hu] at hunp
    simp [Except.map] at hunp
  | some cs =>
    rw [hu] at hunp
    simp only [Except.map, Except.ok.injEq] at hunp
    subst hunp
    refine ⟨rfl, [("Frame ID", some (PyVal.pyInt (b1 : Int))),
      ("Destination Address", some (PyVal.pyInt ((((((((b2 : Int) * 256 + b3) * 256 + b4)
        * 256 + b5) * 256 + b6) * 256 + b7) * 256 + b8) * 256 + b9))),
      ("Reserved", some (PyVal.pyInt ((b10 : Int) * 256 + b11))),
      ("Remote Command Options", some (PyVal.pyInt (b12 : Int))),
      ("AT command", some (PyVal.pyStr cs)),
      ("Command Parameter", none)], ?_, rfl⟩
    unfold explain_message
    rw [hunp0]
    rfl

/-- Of the twelve registered templates, exactly `0x08`, `0x17` and `0x88`
have a last field carrying the optional marker. -/
theorem templates_optional_cases (t : Nat) (tmpl : Template)
    (hlook : templates t = some tmpl) (hopt : last_field_optional tmpl = true) :
    (t = 0x08 ∧ tmpl = ⟨"AT Command Frame",
      [F "Frame ID" 4 1 "uint8_t", F "AT Command" 5 2 "str",
       FO "Parameter Value" 7 (-1) "bytes" "optional"]⟩) ∨
    (t = 0x17 ∧ tmpl = ⟨"Remote AT Command Request Frame",
      [F "Frame ID" 4 1 "uint8_t", F "Destination Address" 5 8 "uint64_t",
       F "Reserved" 13 2 "uint16_t", F "Remote Command Options" 15 1 "uint8_t",
       F "AT command" 16 2 "str", FO "Command Parameter" 18 (-1) "bytes" "optional"]⟩) ∨
    (t = 0x88 ∧ tmpl = ⟨"AT Command Response Frame",
      [F "Frame ID" 4 1 "uint8_t", F "AT Command" 5 2 "str",
       F "Command Status" 7 1 "uint8_t",
       FO "Command Data" 8 (-1) "bytes" "optional"]⟩) := by
  unfold templates at hlook
  by_cases h08 : t = 0x08
  · rw [if_pos h08] at hlook
    injection hlook with hl
    exact Or.inl ⟨h08, hl.symm⟩
  rw [if_neg h08] at hlook
  by_cases h09 : t = 0x09
  · rw [if_pos h09] at hlook
    injection hlook with hl
    subst hl
    exact absurd hopt (by decide)
  rw [if_neg h09] at hlook
  by_cases h10 : t = 0x10
  · rw [if_pos h10] at hlook
    injection hlook with hl
    subst hl
    exact absurd hopt (by decide)
  rw [if_neg h10] at hlook
  by_cases h11 : t = 0x11
  · rw [if_pos h11] at hlook
    injection hlook with hl
    subst hl
    exact absurd hopt (by decide)
  rw [if_neg h11] at hlook
  by_cases h17 : t = 0x17
  · rw [if_pos h17] at hlook
    injection hlook with hl
    exact Or.inr (Or.inl ⟨h17, hl.symm⟩)
  rw [if_neg h17] at hlook
  by_cases h88 : t = 0x88
  · rw [if_pos h88] at hlook
    injection hlook with hl
    exact Or.inr (Or.inr ⟨h88, hl.symm⟩)
  rw [if_neg h88] at hlook
  by_cases h89 : t = 0x89
  · rw [if_pos h89] at hlook
    injection hlook with hl
    subst hl
    exact absurd hopt (by decide)
  rw [if_neg h89] at hlook
  by_cases h8A : t = 0x8A
  · rw [if_pos h8A] at hlook
    injection hlook with hl
    subst hl
    exact absurd hopt (by decide)
  rw [if_neg h8A] at hlook
  by_cases h8B : t = 0x8B
  · rw [if_pos h8B] at hlook
    injection hlook with hl
    subst hl
    exact absurd hopt (by decide)
  rw [if_neg h8B] at hlook
  by_cases h90 : t = 0x90
  · rw [if_pos h90] at hlook
    injection hlook with hl
    subst hl
    exact absurd hopt (by decide)
  rw [if_neg h90] at hlook
  by_cases h91 : t = 0x91
  · rw [if_pos h91] at hlook
    injection hlook with hl
    subst hl
    exact absurd hopt (by decide)
  rw [if_neg h91] at hlook
  by_cases h97 : t = 0x97
  · rw [if_pos h97] at hlook
    injection hlook with hl
    subst hl
    exact absurd hopt (by decide)
  rw [if_neg h97] at hlook
  exact absurd hlook (by simp)

/-- Claim C5: for every registered schema whose last field carries the
optional marker (`0x08`, `0x17`, `0x88`), unpacking a payload truncated to
exactly the fixed-field length yields a result array from which the
optional field is entirely absent (the array has one entry per remaining
Python-template item, none for the optional field), and Explain still
lists the optional field's name, bound to the explicit `None` absent
marker. -/
theorem c5_truncated_optional_absent (t : Nat) (tmpl : Template) (msg : List Nat)
    (arr : List PyVal) (hlook : templates t = some tmpl)
    (hopt : last_field_optional tmpl = true) (hhead : msg.head? = some t)
    (hlen : (msg.length : Int) = fixed_len tmpl)
    (hunp : unpack_message msg = .ok arr) :
    arr.length = tmpl.fields.length ∧
    ∃ pairs, explain_message msg = .ok (tmpl.tname, pairs) ∧
      pairs.getLast? = some ((((tmpl.fields.getLast?).map Field.fname).getD ""), none) := by
  obtain ⟨m0, tail, rfl⟩ : ∃ m0 tail, msg = m0 :: tail := by
    cases msg with
    | nil => simp at hhead
    | cons m0 tail => exact ⟨m0, tail, rfl⟩
  have hm0 : m0 = t := by simpa using hhead
  subst hm0
  rcases templates_optional_cases m0 tmpl hlook hopt with
    ⟨rfl, rfl⟩ | ⟨rfl, rfl⟩ | ⟨rfl, rfl⟩
  · have hlen3 : tail.length = 3 := by
      simp [fixed_len, F, FO] at hlen
      omega
    obtain ⟨b, tail, rfl, hlen2⟩ := cons_of_length_succ tail 2 hlen3
    obtain ⟨c1, tail, rfl, hlen1⟩ := cons_of_length_succ tail 1 hlen2
    obtain ⟨c2, tail, rfl, hlen0⟩ := cons_of_length_succ tail 0 hlen1
    rw [List.length_eq_zero] at hlen0
    subst hlen0
    exact c5aux08 b c1 c2 arr hunp
  · have hlen14 : tail.length = 14 := by
      simp [fixed_len, F, FO] at hlen
      omega
    obtain ⟨b1, tail, rfl, h13⟩ := cons_of_length_succ tail 13 hlen14
    obtain ⟨b2, tail, rfl, h12⟩ := cons_of_length_succ tail 12 h13
    obtain ⟨b3, tail, rfl, h11b⟩ := cons_of_length_succ tail 11 h12
    obtain ⟨b4, tail, rfl, h10b⟩ := cons_of_length_succ tail 10 h11b
    obtain ⟨b5, tail, rfl, h9b⟩ := cons_of_length_succ tail 9 h10b
    obtain ⟨b6, tail, rfl, h8b⟩ := cons_of_length_succ tail 8 h9b
    obtain ⟨b7, tail, rfl, h7b⟩ := cons_of_length_succ tail 7 h8b
    obtain ⟨b8, tail, rfl, h6b⟩ := cons_of_length_succ tail 6 h7b
    obtain ⟨b9, tail, rfl, h5b⟩ := cons_of_length_succ tail 5 h6b
    obtain ⟨b10, tail, rfl, h4b⟩ := cons_of_length_succ tail 4 h5b
    obtain ⟨b11, tail, rfl, h3b⟩ := cons_of_length_succ tail 3 h4b
    obtain ⟨b12, tail, rfl, h2b⟩ := cons_of_length_succ tail 2 h3b
    obtain ⟨b13, tail, rfl, h1b⟩ := cons_of_length_succ tail 1 h2b
    obtain ⟨b14, tail, rfl, h0b⟩ := cons_of_length_succ tail 0 h1b
    rw [List.length_eq_zero] at h0b
    subst h0b
    exact c5aux17 b1 b2 b3 b4 b5 b6 b7 b8 b9 b10 b11 b12 b13 b14 arr hunp
  · have hlen4 : tail.length = 4 := by
      simp [fixed_len, F, FO] at hlen
      omega
    obtain ⟨b, tail, rfl, hlen3⟩ := cons_of_length_succ tail 3 hlen4
    obtain ⟨c1, tail, rfl, hlen2⟩ := cons_of_length_succ tail 2 hlen3
    obtain ⟨c2, tail, rfl, hlen1⟩ := cons_of_length_succ tail 1 hlen2
    obtain ⟨s, tail, rfl, hlen0⟩ := cons_of_length_succ tail 0 hlen1
    rw [List.length_eq_zero] at hlen0
    subst hlen0
    exact c5aux88 b c1 c2 s arr hunp

/-! ## Struct-level inversion (towards C1) -/

theorem pack_c_map (bs : List Nat) (vs : List SVal) :
    pack_c bs.length (bs.map SVal.c ++ vs) = some (bs, vs) := by
  induction bs with
  | nil => rfl
  | cons b bs ih => simp [pack_c, ih]

theorem pack_c_map_nil (bs : List Nat) :
    pack_c bs.length (bs.map SVal.c) = some (bs, []) := by
  simpa using pack_c_map bs []

theorem pack_c_sound (k : Nat) (vs : List SVal) (bs : List Nat) (vs' : List SVal)
    (h : pack_c k vs = some (bs, vs')) :
    vs = bs.map SVal.c ++ vs' ∧ bs.length = k := by
  induction k generalizing vs bs vs' with
  | zero =>
    simp [pack_c] at h
    obtain ⟨h1, h2⟩ := h
    subst h1
    subst h2
    simp
  | succ k ih =>
    match vs with
    | [] => simp [pack_c] at h
    | .i n :: vs2 => simp [pack_c] at h
    | .c b :: vs2 =>
      rw [pack_c] at h
      cases hrec : pack_c k vs2 with
      | none => rw [hrec] at h; simp at h
      | some q =>
        obtain ⟨bs2, vs2'⟩ := q
        rw [hrec] at h
        simp at h
        obtain ⟨hb, hv⟩ := h
        obtain ⟨h1, h2⟩ := ih vs2 bs2 vs2' hrec
        subst hb
        subst hv
        simp [h1, h2]

theorem unpack_c_exact (bs rest : List Nat) :
    unpack_c bs.length (bs ++ rest) = some (bs.map SVal.c, rest) := by
  induction bs with
  | nil => rfl
  | cons b bs ih => simp [unpack_c, ih]

theorem join_c_loop (bs : List Nat) (acc : List Nat) :
    List.mapM.loop
      (fun v => match v with
        | SVal.c b => Except.ok b
        | SVal.i _ => Except.error PyErr.typeError)
      (bs.map SVal.c) acc = Except.ok (acc.reverse ++ bs) := by
  induction bs generalizing acc with
  | nil => simp [List.mapM.loop, Pure.pure, Except.pure]
  | cons b bs ih =>
    simp [List.mapM.loop, Bind.bind, Except.bind, ih]

theorem join_c_map (bs : List Nat) : join_c (bs.map SVal.c) = .ok bs := by
  unfold join_c List.mapM
  simpa using join_c_loop bs []

theorem struct_size_cons (t : STok) (ts : List STok) :
    struct_size (t :: ts) = tok_size t + struct_size ts := by
  simp [struct_size, List.sum_cons]

theorem bad_format_cons (t : STok) (ts : List STok) :
    bad_format (t :: ts) =
      ((match t with | .tC n => decide (n < 0) | _ => false) || bad_format ts) := by
  simp [bad_format, List.any_cons]

theorem struct_pack_length (ts : List STok) (vs : List SVal) (p : List Nat)
    (h : struct_pack ts vs = .ok p) : (p.length : Int) = struct_size ts := by
  induction ts generalizing vs p with
  | nil =>
    match vs with
    | [] => simp [struct_pack] at h; simp [← h, struct_size]
    | _ :: _ => simp [struct_pack] at h
  | cons t ts ih =>
    match t, vs with
    | .tB, [] => simp [struct_pack] at h
    | .tB, .i n :: vs =>
      rw [struct_pack] at h
      by_cases hn : 0 ≤ n ∧ n < 256
      · rw [if_pos hn] at h
        cases hrec : struct_pack ts vs with
        | error e => rw [hrec] at h; simp [Except.map] at h
        | ok p' =>
          rw [hrec] at h
          simp [Except.map] at h
          subst h
          have := ih vs p' hrec
          rw [struct_size_cons]
          simp only [tok_size, List.length_cons]
          push_cast
          omega
      · rw [if_neg hn] at h; simp at h
    | .tB, .c b :: vs => simp [struct_pack] at h
    | .tH, [] => simp [struct_pack] at h
    | .tH, .i n :: vs =>
      rw [struct_pack] at h
      by_cases hn : 0 ≤ n ∧ n < 65536
      · rw [if_pos hn] at h
        cases hrec : struct_pack ts vs with
        | error e => rw [hrec] at h; simp [Except.map] at h
        | ok p' =>
          rw [hrec] at h
          simp [Except.map] at h
          subst h
          have := ih vs p' hrec
          rw [struct_size_cons]
          simp only [tok_size, List.length_cons]
          push_cast
          omega
      · rw [if_neg hn] at h; simp at h
    | .tH, .c b :: vs => simp [struct_pack] at h
    | .tQ, [] => simp [struct_pack] at h
    | .tQ, .i n :: vs =>
      rw [struct_pack] at h
      by_cases hn : 0 ≤ n ∧ n < 2 ^ 64
      · rw [if_pos hn] at h
        cases hrec : struct_pack ts vs with
        | error e => rw [hrec] at h; simp [Except.map] at h
        | ok p' =>
          rw [hrec] at h
          simp [Except.map] at h
          subst h
          have := ih vs p' hrec
          rw [struct_size_cons]
          simp only [tok_size, List.length_cons]
          push_cast
          omega
      · rw [if_neg hn] at h; simp at h
    | .tQ, .c b :: vs => simp [struct_pack] at h
    | .tC k, vs =>
      rw [struct_pack] at h
      by_cases hk : k < 0
      · rw [if_pos hk] at h; simp at h
      · rw [if_neg hk] at h
        cases hpc : pack_c k.toNat vs with
        | none => rw [hpc] at h; simp at h
        | some q =>
          obtain ⟨qb, qv⟩ := q
          rw [hpc] at h
          simp only [] at h
          cases hrec : struct_pack ts qv with
          | error e => rw [hrec] at h; simp [Except.map] at h
          | ok p' =>
            rw [hrec] at h
            simp [Except.map] at h
            obtain ⟨-, hql⟩ := pack_c_sound k.toNat vs qb qv hpc
            have := ih qv p' hrec
            subst h
            rw [struct_size_cons]
            simp only [tok_size, List.length_append]
            push_cast
            omega

theorem struct_pack_no_neg (ts : List STok) (vs : List SVal) (p : List Nat)
    (h : struct_pack ts vs = .ok p) : bad_format ts = false := by
  induction ts generalizing vs p with
  | nil => rfl
  | cons t ts ih =>
    match t, vs with
    | .tB, [] => simp [struct_pack] at h
    | .tB, .i n :: vs =>
      rw [struct_pack] at h
      by_cases hn : 0 ≤ n ∧ n < 256
      · rw [if_pos hn] at h
        cases hrec : struct_pack ts vs with
        | error e => rw [hrec] at h; simp [Except.map] at h
        | ok p' =>
          rw [bad_format_cons]
          simp only [Bool.false_or]
          exact ih vs p' hrec
      · rw [if_neg hn] at h; simp at h
    | .tB, .c b :: vs => simp [struct_pack] at h
    | .tH, [] => simp [struct_pack] at h
    | .tH, .i n :: vs =>
      rw [struct_pack] at h
      by_cases hn : 0 ≤ n ∧ n < 65536
      · rw [if_pos hn] at h
        cases hrec : struct_pack ts vs with
        | error e => rw [hrec] at h; simp [Except.map] at h
        | ok p' =>
          rw [bad_format_cons]
          simp only [Bool.false_or]
          exact ih vs p' hrec
      · rw [if_neg hn] at h; simp at h
    | .tH, .c b :: vs => simp [struct_pack] at h
    | .tQ, [] => simp [struct_pack] at h
    | .tQ, .i n :: vs =>
      rw [struct_pack] at h
      by_cases hn : 0 ≤ n ∧ n < 2 ^ 64
      · rw [if_pos hn] at h
        cases hrec : struct_pack ts vs with
        | error e => rw [hrec] at h; simp [Except.map] at h
        | ok p' =>
          rw [bad_format_cons]
          simp only [Bool.false_or]
          exact ih vs p' hrec
      · rw [if_neg hn] at h; simp at h
    | .tQ, .c b :: vs => simp [struct_pack] at h
    | .tC k, vs =>
      rw [struct_pack] at h
      by_cases hk : k < 0
      · rw [if_pos hk] at h; simp at h
      · rw [if_neg hk] at h
        cases hpc : pack_c k.toNat vs with
        | none => rw [hpc] at h; simp at h
        | some q =>
          obtain ⟨qb, qv⟩ := q
          rw [hpc] at h
          simp only [] at h
          cases hrec : struct_pack ts qv with
          | error e => rw [hrec] at h; simp [Except.map] at h
          | ok p' =>
            rw [bad_format_cons]
            simp only [Bool.or_eq_false_iff]
            exact ⟨decide_eq_false hk, ih qv p' hrec⟩

theorem struct_unpack_go_of_pack (ts : List STok) (vs : List SVal) (p : List Nat)
    (h : struct_pack ts vs = .ok p) : struct_unpack_go ts p = .ok vs := by
  induction ts generalizing vs p with
  | nil =>
    match vs with
    | [] =>
      simp [struct_pack] at h
      subst h
      rfl
    | _ :: _ => simp [struct_pack] at h
  | cons t ts ih =>
    match t, vs with
    | .tB, [] => simp [struct_pack] at h
    | .tB, .i n :: vs =>
      rw [struct_pack] at h
      by_cases hn : 0 ≤ n ∧ n < 256
      · rw [if_pos hn] at h
        cases hrec : struct_pack ts vs with
        | error e => rw [hrec] at h; simp [Except.map] at h
        | ok p' =>
          rw [hrec] at h
          simp [Except.map] at h
          subst h
          simp [struct_unpack_go, ih vs p' hrec, Except.map,
            Int.toNat_of_nonneg hn.1]
      · rw [if_neg hn] at h; simp at h
    | .tB, .c b :: vs => simp [struct_pack] at h
    | .tH, [] => simp [struct_pack] at h
    | .tH, .i n :: vs =>
      rw [struct_pack] at h
      by_cases hn : 0 ≤ n ∧ n < 65536
      · rw [if_pos hn] at h
        cases hrec : struct_pack ts vs with
        | error e => rw [hrec] at h; simp [Except.map] at h
        | ok p' =>
          rw [hrec] at h
          simp [Except.map] at h
          subst h
          have hm : ((n.toNat : Nat) : Int) = n := Int.toNat_of_nonneg hn.1
          have hval : ((n.toNat / 256 : Nat) : Int) * 256 + ((n.toNat % 256 : Nat) : Int)
              = n := by
            rw [← hm]
            generalize n.toNat = m
            exact_mod_cast (show m / 256 * 256 + m % 256 = m by omega)
          simp only [struct_unpack_go]
          rw [ih vs p' hrec]
          simp only [Except.map]
          rw [hval]
      · rw [if_neg hn] at h; simp at h
    | .tH, .c b :: vs => simp [struct_pack] at h
    | .tQ, [] => simp [struct_pack] at h
    | .tQ, .i n :: vs =>
      rw [struct_pack] at h
      by_cases hn : 0 ≤ n ∧ n < 2 ^ 64
      · rw [if_pos hn] at h
        cases hrec : struct_pack ts vs with
        | error e => rw [hrec] at h; simp [Except.map] at h
        | ok p' =>
          rw [hrec] at h
          simp [Except.map] at h
          subst h
          have hm : ((n.toNat : Nat) : Int) = n := Int.toNat_of_nonneg hn.1
          have hlt : n.toNat < 2 ^ 64 := by omega
          have hval : ((((((((n.toNat / 72057594037927936 : Nat) : Int) * 256
              + ((n.toNat / 281474976710656 % 256 : Nat) : Int)) * 256
              + ((n.toNat / 1099511627776 % 256 : Nat) : Int)) * 256
              + ((n.toNat / 4294967296 % 256 : Nat) : Int)) * 256
              + ((n.toNat / 16777216 % 256 : Nat) : Int)) * 256
              + ((n.toNat / 65536 % 256 : Nat) : Int)) * 256
              + ((n.toNat / 256 % 256 : Nat) : Int)) * 256
              + ((n.toNat % 256 : Nat) : Int) = n := by
            rw [← hm]
            generalize hg : n.toNat = m
            rw [hg] at hlt
            exact_mod_cast (show ((((((m / 72057594037927936 * 256
              + m / 281474976710656 % 256) * 256
              + m / 1099511627776 % 256) * 256 + m / 4294967296 % 256) * 256
              + m / 16777216 % 256) * 256 + m / 65536 % 256) * 256
              + m / 256 % 256) * 256 + m % 256 = m by omega)
          simp only [struct_unpack_go]
          rw [ih vs p' hrec]
          simp only [Except.map]
          rw [hval]
      · rw [if_neg hn] at h; simp at h
    | .tQ, .c b :: vs => simp [struct_pack] at h
    | .tC k, vs =>
      rw [struct_pack] at h
      by_cases hk : k < 0
      · rw [if_pos hk] at h; simp at h
      · rw [if_neg hk] at h
        cases hpc : pack_c k.toNat vs with
        | none => rw [hpc] at h; simp at h
        | some q =>
          obtain ⟨qb, qv⟩ := q
          rw [hpc] at h
          simp only [] at h
          cases hrec : struct_pack ts qv with
          | error e => rw [hrec] at h; simp [Except.map] at h
          | ok p' =>
            rw [hrec] at h
            simp [Except.map] at h
            obtain ⟨hvq, hql⟩ := pack_c_sound k.toNat vs qb qv hpc
            subst h
            rw [struct_unpack_go, if_neg hk, ← hql, unpack_c_exact qb p']
            simp [ih qv p' hrec, Except.map, hvq]

theorem struct_unpack_of_pack (ts : List STok) (vs : List SVal) (p : List Nat)
    (h : struct_pack ts vs = .ok p) : struct_unpack ts p = .ok vs := by
  unfold struct_unpack
  rw [struct_pack_no_neg ts vs p h]
  rw [struct_pack_length ts vs p h]
  simp [struct_unpack_go_of_pack ts vs p h]

theorem zip_replicate_filter_map (idx j : Nat) (l : List SVal) :
    ((((List.replicate l.length j).zip l).filter (fun p => p.1 = idx)).map Prod.snd)
      = if idx = j then l else [] := by
  induction l with
  | nil => simp
  | cons x l ih =>
    simp only [List.length_cons, List.replicate_succ, List.zip_cons_cons, List.filter_cons]
    by_cases hij : idx = j
    · subst hij
      simp [ih]
    · have : ¬(j = idx) := fun hc => hij hc.symm
      simp [this, hij, ih]

theorem values_at_append_replicate (pre : List Nat) (preD : List SVal) (j : Nat)
    (l : List SVal) (hpre : pre.length = preD.length) (idx : Nat) :
    values_at (pre ++ List.replicate l.length j) (preD ++ l) idx =
      values_at pre preD idx ++ (if idx = j then l else []) := by
  unfold values_at
  rw [List.zip_append hpre, List.filter_append, List.map_append,
    zip_replicate_filter_map]

theorem foldl_max_replicate (n a b : Nat) :
    List.foldl max a (List.replicate n b) = if n = 0 then a else max a b := by
  induction n generalizing a with
  | zero => rfl
  | succ n ih =>
    rw [List.replicate_succ, List.foldl_cons, ih]
    by_cases hn : n = 0 <;> simp [hn, max_assoc]

theorem mask_max_append_replicate (pre : List Nat) (n j : Nat) :
    mask_max (pre ++ List.replicate n j) =
      if n = 0 then mask_max pre else max (mask_max pre) j := by
  unfold mask_max
  rw [List.foldl_append, foldl_max_replicate]

theorem mapM_comp_loop (f : Nat → Except PyErr PyVal) (g : Nat → PyVal)
    (l : List Nat) (acc : List PyVal) (h : ∀ i ∈ l, f i = .ok (g i)) :
    List.mapM.loop f l acc = .ok (acc.reverse ++ l.map g) := by
  induction l generalizing acc with
  | nil => simp [List.mapM.loop, Pure.pure, Except.pure]
  | cons a l ih =>
    rw [List.mapM.loop]
    rw [h a (by simp)]
    have := ih (g a :: acc) (fun i hi => h i (by simp [hi]))
    simp only [Bind.bind, Except.bind]
    rw [this]
    simp

theorem mapM_ok_of_mem (l : List Nat) (f : Nat → Except PyErr PyVal) (g : Nat → PyVal)
    (h : ∀ i ∈ l, f i = .ok (g i)) : l.mapM f = .ok (l.map g) := by
  unfold List.mapM
  simpa using mapM_comp_loop f g l [] h

theorem unpack_component_bytes (tmpl : Template) (mask : List Nat) (data : List SVal)
    (j : Nat) (bs : List Nat) (hty : template_item_type tmpl j = some "bytes")
    (hvs : values_at mask data j = bs.map SVal.c) (hbs : bs ≠ []) :
    unpack_component tmpl mask data j = .ok (.pyBytes bs) := by
  unfold unpack_component
  rw [hty, hvs]
  match bs, hbs with
  | [b], _ => rfl
  | b1 :: b2 :: rest, _ =>
    have hlen : ((b1 :: b2 :: rest).map SVal.c).length > 1 := by simp
    simp only []
    rw [if_pos hlen]
    have hnstr : ¬("bytes" = "str") := by decide
    rw [if_neg hnstr]
    have hj : join_c (SVal.c b1 :: SVal.c b2 :: List.map SVal.c rest)
        = .ok (b1 :: b2 :: rest) := join_c_map (b1 :: b2 :: rest)
    simp [hj, Except.map]

/-- Claim C5 witness: the AT-command request `0x08` truncated to its four
fixed bytes. -/
theorem c5_truncated_optional_absent_witness :
    ([PyVal.pyInt 8, PyVal.pyInt 1, PyVal.pyStr [78, 73]].length = 3) ∧
    ∃ pairs, explain_message [0x08, 0x01, 0x4E, 0x49] =
      .ok ("AT Command Frame", pairs) ∧
      pairs.getLast? = some ("Parameter Value", none) := by
  have h := c5_truncated_optional_absent 0x08
    ⟨"AT Command Frame",
     [F "Frame ID" 4 1 "uint8_t", F "AT Command" 5 2 "str",
      FO "Parameter Value" 7 (-1) "bytes" "optional"]⟩
    [0x08, 0x01, 0x4E, 0x49] [.pyInt 8, .pyInt 1, .pyStr [78, 73]]
    rfl rfl rfl (by decide) rfl
  exact ⟨h.1, h.2⟩


/-! ## Claim C1: pack/unpack round trip -/


theorem dft_u8 (L : Nat) (nm : String) (st : Int) (i : Nat) :
    decode_field_toks L (F nm st 1 "uint8_t") i = ([.tB], [i]) := rfl

theorem dft_u16 (L : Nat) (nm : String) (st : Int) (i : Nat) :
    decode_field_toks L (F nm st 2 "uint16_t") i = ([.tH], [i]) := rfl

theorem dft_u64 (L : Nat) (nm : String) (st : Int) (i : Nat) :
    decode_field_toks L (F nm st 8 "uint64_t") i = ([.tQ], [i]) := rfl

theorem dft_varbytes (L : Nat) (nm : String) (st : Int) (i : Nat) :
    decode_field_toks L (F nm st (-1) "bytes") i
      = ([.tC ((L : Int) + 3 - st)], List.replicate ((L : Int) + 3 - st).toNat i) := rfl

theorem struct_pack_cons_B (n : Int) (ts : List STok) (vs : List SVal) (p : List Nat)
    (h0 : 0 ≤ n) (h1 : n < 256) (hp : struct_pack ts vs = .ok p) :
    struct_pack (.tB :: ts) (.i n :: vs) = .ok (n.toNat :: p) := by
  rw [struct_pack, if_pos ⟨h0, h1⟩, hp]
  rfl

theorem struct_pack_cons_H (n : Int) (ts : List STok) (vs : List SVal) (p : List Nat)
    (h0 : 0 ≤ n) (h1 : n < 65536) (hp : struct_pack ts vs = .ok p) :
    struct_pack (.tH :: ts) (.i n :: vs)
      = .ok (n.toNat / 256 :: n.toNat % 256 :: p) := by
  rw [struct_pack, if_pos ⟨h0, h1⟩, hp]
  rfl

theorem struct_pack_cons_Q (n : Int) (ts : List STok) (vs : List SVal) (p : List Nat)
    (h0 : 0 ≤ n) (h1 : n < 2 ^ 64) (hp : struct_pack ts vs = .ok p) :
    struct_pack (.tQ :: ts) (.i n :: vs)
      = .ok (n.toNat / 256 ^ 7 :: n.toNat / 256 ^ 6 % 256 :: n.toNat / 256 ^ 5 % 256 ::
        n.toNat / 256 ^ 4 % 256 :: n.toNat / 256 ^ 3 % 256 :: n.toNat / 256 ^ 2 % 256 ::
        n.toNat / 256 % 256 :: n.toNat % 256 :: p) := by
  rw [struct_pack, if_pos ⟨h0, h1⟩, hp]
  rfl

theorem struct_pack_cons_C (bs : List Nat) (ts : List STok) (vs : List SVal) (p : List Nat)
    (hp : struct_pack ts vs = .ok p) :
    struct_pack (.tC (bs.length : Int) :: ts) (bs.map SVal.c ++ vs) = .ok (bs ++ p) := by
  rw [struct_pack, if_neg (by omega), Int.toNat_natCast, pack_c_map]
  simp only []
  rw [hp]
  rfl

theorem unpack_component_single_int (tmpl : Template) (mask : List Nat)
    (data : List SVal) (j : Nat) (ty : String) (n : Int)
    (hty : template_item_type tmpl j = some ty)
    (hvs : values_at mask data j = [.i n]) :
    unpack_component tmpl mask data j = .ok (.pyInt n) := by
  unfold unpack_component
  rw [hty, hvs]
  simp only []
  rw [if_neg (by simp : ¬([SVal.i n].length > 1))]
  by_cases hty2 : ty = "uint64_t" ∨ ty = "uint8_t"
  · rw [if_pos hty2]
  · rw [if_neg hty2]

theorem values_at_pre (pre : List Nat) (preD : List SVal) (l : List SVal)
    (j idx : Nat) (hpre : pre.length = preD.length) (hidx : idx ≠ j) :
    values_at (pre ++ List.replicate l.length j) (preD ++ l) idx
      = values_at pre preD idx := by
  rw [values_at_append_replicate pre preD j l hpre idx, if_neg hidx, List.append_nil]

theorem values_at_tail (pre : List Nat) (preD : List SVal) (l : List SVal)
    (j : Nat) (hpre : pre.length = preD.length)
    (hj : values_at pre preD j = []) :
    values_at (pre ++ List.replicate l.length j) (preD ++ l) j = l := by
  rw [values_at_append_replicate pre preD j l hpre j, if_pos rfl, hj, List.nil_append]

theorem c1aux90 (src res opts : Int) (bs : List Nat)
    (h1 : 0 ≤ src) (h2 : src < 2 ^ 64) (h3 : 0 ≤ res) (h4 : res < 65536)
    (h5 : 0 ≤ opts) (h6 : opts < 256) (hbs : bs ≠ []) :
    ∃ p, pack_message [.pyInt 0x90, .pyInt src, .pyInt res, .pyInt opts, .pyBytes bs]
        = .ok p ∧
      unpack_message p
        = .ok [.pyInt 0x90, .pyInt src, .pyInt res, .pyInt opts, .pyBytes bs] := by
  have hc : struct_pack [.tC (bs.length : Int)] (bs.map SVal.c) = .ok bs := by
    have h := struct_pack_cons_C bs [] [] [] rfl
    rwa [List.append_nil, List.append_nil] at h
  have hpack : struct_pack [.tB, .tQ, .tH, .tB, .tC (bs.length : Int)]
      ([SVal.i 0x90, .i src, .i res, .i opts] ++ bs.map SVal.c)
      = .ok (0x90 :: src.toNat / 256 ^ 7 :: src.toNat / 256 ^ 6 % 256 :: src.toNat / 256 ^ 5 % 256 ::
        src.toNat / 256 ^ 4 % 256 :: src.toNat / 256 ^ 3 % 256 :: src.toNat / 256 ^ 2 % 256 ::
        src.toNat / 256 % 256 :: src.toNat % 256 ::
        res.toNat / 256 :: res.toNat % 256 :: opts.toNat :: bs) :=
    struct_pack_cons_B 0x90 _ _ _ (by decide) (by decide)
      (struct_pack_cons_Q src _ _ _ h1 h2
        (struct_pack_cons_H res _ _ _ h3 h4
          (struct_pack_cons_B opts _ _ _ h5 h6 hc)))
  have hud := struct_unpack_of_pack _ _ _ hpack
  have hdec : generate_struct_decode
      (0x90 :: src.toNat / 256 ^ 7 :: src.toNat / 256 ^ 6 % 256 :: src.toNat / 256 ^ 5 % 256 ::
        src.toNat / 256 ^ 4 % 256 :: src.toNat / 256 ^ 3 % 256 :: src.toNat / 256 ^ 2 % 256 ::
        src.toNat / 256 % 256 :: src.toNat % 256 ::
        res.toNat / 256 :: res.toNat % 256 :: opts.toNat :: bs)
      = .ok ([.tB, .tQ, .tH, .tB, .tC (bs.length : Int)],
          [0, 1, 2, 3] ++ List.replicate (bs.map SVal.c).length 4) := by
    unfold generate_struct_decode
    simp only []
    rw [show templates 0x90 = some ⟨"Receive Packet Frame",
          [F "Source Address" 4 8 "uint64_t", F "Reserved" 12 2 "uint16_t",
           F "Receive options" 14 1 "uint8_t", F "Received data" 15 (-1) "bytes"]⟩ from rfl]
    simp only [decode_toks_go, dft_u8, dft_u16, dft_u64, dft_varbytes]
    simp only [List.length_cons]
    simp
    omega
  have hum : unpack_message (0x90 :: src.toNat / 256 ^ 7 :: src.toNat / 256 ^ 6 % 256 :: src.toNat / 256 ^ 5 % 256 ::
        src.toNat / 256 ^ 4 % 256 :: src.toNat / 256 ^ 3 % 256 :: src.toNat / 256 ^ 2 % 256 ::
        src.toNat / 256 % 256 :: src.toNat % 256 ::
        res.toNat / 256 :: res.toNat % 256 :: opts.toNat :: bs)
      = (List.range (mask_max ([0, 1, 2, 3] ++ List.replicate (bs.map SVal.c).length 4) + 1)).mapM
        (unpack_component ⟨"Receive Packet Frame",
          [F "Source Address" 4 8 "uint64_t", F "Reserved" 12 2 "uint16_t",
           F "Receive options" 14 1 "uint8_t", F "Received data" 15 (-1) "bytes"]⟩
          ([0, 1, 2, 3] ++ List.replicate (bs.map SVal.c).length 4)
          ([SVal.i 0x90, .i src, .i res, .i opts] ++ bs.map SVal.c)) := by
    unfold unpack_message
    rw [hdec]
    simp only []
    rw [hud]
    rfl
  have hmm : mask_max ([0, 1, 2, 3] ++ List.replicate (bs.map SVal.c).length 4) = 4 := by
    rw [mask_max_append_replicate]
    rw [if_neg (by simpa using hbs)]
    decide
  refine ⟨0x90 :: src.toNat / 256 ^ 7 :: src.toNat / 256 ^ 6 % 256 :: src.toNat / 256 ^ 5 % 256 ::
        src.toNat / 256 ^ 4 % 256 :: src.toNat / 256 ^ 3 % 256 :: src.toNat / 256 ^ 2 % 256 ::
        src.toNat / 256 % 256 :: src.toNat % 256 ::
        res.toNat / 256 :: res.toNat % 256 :: opts.toNat :: bs, ?_, ?_⟩
  · rw [show pack_message [PyVal.pyInt 0x90, .pyInt src, .pyInt res, .pyInt opts, .pyBytes bs]
        = struct_pack [.tB, .tQ, .tH, .tB, .tC (bs.length : Int)]
          ([SVal.i 0x90, .i src, .i res, .i opts] ++ (bs.map SVal.c ++ [])) from rfl]
    rw [List.append_nil]
    exact hpack
  · rw [hum, hmm]
    rw [mapM_ok_of_mem _ _ (fun i =>
      [PyVal.pyInt 0x90, .pyInt src, .pyInt res, .pyInt opts, .pyBytes bs].getD i (.pyStr []))]
    · rfl
    · intro i hi
      rw [List.mem_range] at hi
      interval_cases i
      · exact unpack_component_single_int _ _ _ 0 _ _ rfl
          (by rw [values_at_pre [0, 1, 2, 3] [SVal.i 0x90, .i src, .i res, .i opts]
              (bs.map SVal.c) 4 0 rfl (by decide)]; rfl)
      · exact unpack_component_single_int _ _ _ 1 _ _ rfl
          (by rw [values_at_pre [0, 1, 2, 3] [SVal.i 0x90, .i src, .i res, .i opts]
              (bs.map SVal.c) 4 1 rfl (by decide)]; rfl)
      · exact unpack_component_single_int _ _ _ 2 _ _ rfl
          (by rw [values_at_pre [0, 1, 2, 3] [SVal.i 0x90, .i src, .i res, .i opts]
              (bs.map SVal.c) 4 2 rfl (by decide)]; rfl)
      · exact unpack_component_single_int _ _ _ 3 _ _ rfl
          (by rw [values_at_pre [0, 1, 2, 3] [SVal.i 0x90, .i src, .i res, .i opts]
              (bs.map SVal.c) 4 3 rfl (by decide)]; rfl)
      · exact unpack_component_bytes _ _ _ 4 bs rfl
          (by rw [values_at_tail [0, 1, 2, 3] [SVal.i 0x90, .i src, .i res, .i opts]
              (bs.map SVal.c) 4 rfl rfl]) hbs

theorem c1aux89 (fid : Int) (st : Int)
    (h0a : 0 ≤ fid) (h0b : fid < 256)
    (h1a : 0 ≤ st) (h1b : st < 256) :
    ∃ p, pack_message [.pyInt 0x89, .pyInt fid, .pyInt st]
        = .ok p ∧
      unpack_message p
        = .ok [.pyInt 0x89, .pyInt fid, .pyInt st] := by
  have hpack : struct_pack [.tB, .tB, .tB]
      ([SVal.i 0x89, .i fid, .i st])
      = .ok ([0x89, fid.toNat, st.toNat]) :=
    struct_pack_cons_B 0x89 _ _ _ (by decide) (by decide)
      (struct_pack_cons_B fid _ _ _ h0a h0b
        (struct_pack_cons_B st _ _ _ h1a h1b
        rfl))
  have hud := struct_unpack_of_pack _ _ _ hpack
  have hdec : generate_struct_decode
      ([0x89, fid.toNat, st.toNat])
      = .ok ([.tB, .tB, .tB],
          [0, 1, 2]) := by
    rfl
  have hum : unpack_message ([0x89, fid.toNat, st.toNat])
      = (List.range (3)).mapM
        (unpack_component ⟨"TX Status Frame",
          [F "Frame ID" 4 1 "uint8_t",
           F "Status" 5 1 "uint8_t"]⟩
          ([0, 1, 2])
          ([SVal.i 0x89, .i fid, .i st])) := by
    unfold unpack_message
    rw [hdec]
    simp only []
    rw [hud]
    rfl
  refine ⟨[0x89, fid.toNat, st.toNat], ?_, ?_⟩
  · rw [show pack_message [PyVal.pyInt 0x89, .pyInt fid, .pyInt st]
        = struct_pack [.tB, .tB, .tB]
          ([SVal.i 0x89, .i fid, .i st]) from rfl]
    exact hpack
  · rw [hum]
    rw [mapM_ok_of_mem _ _ (fun i =>
      [PyVal.pyInt 0x89, .pyInt fid, .pyInt st].getD i (.pyStr []))]
    · rfl
    · intro i hi
      rw [List.mem_range] at hi
      interval_cases i
      · rfl
      · rfl
      · rfl

theorem c1aux8A (st : Int)
    (h0a : 0 ≤ st) (h0b : st < 256) :
    ∃ p, pack_message [.pyInt 0x8A, .pyInt st]
        = .ok p ∧
      unpack_message p
        = .ok [.pyInt 0x8A, .pyInt st] := by
  have hpack : struct_pack [.tB, .tB]
      ([SVal.i 0x8A, .i st])
      = .ok ([0x8A, st.toNat]) :=
    struct_pack_cons_B 0x8A _ _ _ (by decide) (by decide)
      (struct_pack_cons_B st _ _ _ h0a h0b
        rfl)
  have hud := struct_unpack_of_pack _ _ _ hpack
  have hdec : generate_struct_decode
      ([0x8A, st.toNat])
      = .ok ([.tB, .tB],
          [0, 1]) := by
    rfl
  have hum : unpack_message ([0x8A, st.toNat])
      = (List.range (2)).mapM
        (unpack_component ⟨"Modem Status Frame",
          [F "Status" 4 1 "uint8_t"]⟩
          ([0, 1])
          ([SVal.i 0x8A, .i st])) := by
    unfold unpack_message
    rw [hdec]
    simp only []
    rw [hud]
    rfl
  refine ⟨[0x8A, st.toNat], ?_, ?_⟩
  · rw [show pack_message [PyVal.pyInt 0x8A, .pyInt st]
        = struct_pack [.tB, .tB]
          ([SVal.i 0x8A, .i st]) from rfl]
    exact hpack
  · rw [hum]
    rw [mapM_ok_of_mem _ _ (fun i =>
      [PyVal.pyInt 0x8A, .pyInt st].getD i (.pyStr []))]
    · rfl
    · intro i hi
      rw [List.mem_range] at hi
      interval_cases i
      · rfl
      · rfl

theorem c1aux8B (fid : Int) (res : Int) (rty : Int) (dlv : Int) (dsc : Int)
    (h0a : 0 ≤ fid) (h0b : fid < 256)
    (h1a : 0 ≤ res) (h1b : res < 65536)
    (h2a : 0 ≤ rty) (h2b : rty < 256)
    (h3a : 0 ≤ dlv) (h3b : dlv < 256)
    (h4a : 0 ≤ dsc) (h4b : dsc < 256) :
    ∃ p, pack_message [.pyInt 0x8B, .pyInt fid, .pyInt res, .pyInt rty, .pyInt dlv, .pyInt dsc]
        = .ok p ∧
      unpack_message p
        = .ok [.pyInt 0x8B, .pyInt fid, .pyInt res, .pyInt rty, .pyInt dlv, .pyInt dsc] := by
  have hpack : struct_pack [.tB, .tB, .tH, .tB, .tB, .tB]
      ([SVal.i 0x8B, .i fid, .i res, .i rty, .i dlv, .i dsc])
      = .ok ([0x8B, fid.toNat, res.toNat / 256, res.toNat % 256, rty.toNat, dlv.toNat, dsc.toNat]) :=
    struct_pack_cons_B 0x8B _ _ _ (by decide) (by decide)
      (struct_pack_cons_B fid _ _ _ h0a h0b
        (struct_pack_cons_H res _ _ _ h1a h1b
        (struct_pack_cons_B rty _ _ _ h2a h2b
        (struct_pack_cons_B dlv _ _ _ h3a h3b
        (struct_pack_cons_B dsc _ _ _ h4a h4b
        rfl)))))
  have hud := struct_unpack_of_pack _ _ _ hpack
  have hdec : generate_struct_decode
      ([0x8B, fid.toNat, res.toNat / 256, res.toNat % 256, rty.toNat, dlv.toNat, dsc.toNat])
      = .ok ([.tB, .tB, .tH, .tB, .tB, .tB],
          [0, 1, 2, 3, 4, 5]) := by
    rfl
  have hum : unpack_message ([0x8B, fid.toNat, res.toNat / 256, res.toNat % 256, rty.toNat, dlv.toNat, dsc.toNat])
      = (List.range (6)).mapM
        (unpack_component ⟨"Transmit Status Frame",
          [F "Frame ID" 4 1 "uint8_t",
           F "Reserved" 5 2 "uint16_t",
           F "Transmit Retry Count" 7 1 "uint8_t",
           F "Delivery Status" 8 1 "uint8_t",
           F "Discovery Status" 9 1 "uint8_t"]⟩
          ([0, 1, 2, 3, 4, 5])
          ([SVal.i 0x8B, .i fid, .i res, .i rty, .i dlv, .i dsc])) := by
    unfold unpack_message
    rw [hdec]
    simp only []
    rw [hud]
    rfl
  refine ⟨[0x8B, fid.toNat, res.toNat / 256, res.toNat % 256, rty.toNat, dlv.toNat, dsc.toNat], ?_, ?_⟩
  · rw [show pack_message [PyVal.pyInt 0x8B, .pyInt fid, .pyInt res, .pyInt rty, .pyInt dlv, .pyInt dsc]
        = struct_pack [.tB, .tB, .tH, .tB, .tB, .tB]
          ([SVal.i 0x8B, .i fid, .i res, .i rty, .i dlv, .i dsc]) from rfl]
    exact hpack
  · rw [hum]
    rw [mapM_ok_of_mem _ _ (fun i =>
      [PyVal.pyInt 0x8B, .pyInt fid, .pyInt res, .pyInt rty, .pyInt dlv, .pyInt dsc].getD i (.pyStr []))]
    · rfl
    · intro i hi
      rw [List.mem_range] at hi
      interval_cases i
      · rfl
      · rfl
      · rfl
      · rfl
      · rfl
      · rfl

theorem c1aux10 (fid : Int) (dst : Int) (res : Int) (rad : Int) (opts : Int) (bs : List Nat)
    (h0a : 0 ≤ fid) (h0b : fid < 256)
    (h1a : 0 ≤ dst) (h1b : dst < 2 ^ 64)
    (h2a : 0 ≤ res) (h2b : res < 65536)
    (h3a : 0 ≤ rad) (h3b : rad < 256)
    (h4a : 0 ≤ opts) (h4b : opts < 256)
    (hbs : bs ≠ []) :
    ∃ p, pack_message [.pyInt 0x10, .pyInt fid, .pyInt dst, .pyInt res, .pyInt rad, .pyInt opts, .pyBytes bs]
        = .ok p ∧
      unpack_message p
        = .ok [.pyInt 0x10, .pyInt fid, .pyInt dst, .pyInt res, .pyInt rad, .pyInt opts, .pyBytes bs] := by
  have hc : struct_pack [.tC (bs.length : Int)] (bs.map SVal.c) = .ok bs := by
    have h := struct_pack_cons_C bs [] [] [] rfl
    rwa [List.append_nil, List.append_nil] at h
  have hpack : struct_pack [.tB, .tB, .tQ, .tH, .tB, .tB, .tC (bs.length : Int)]
      ([SVal.i 0x10, .i fid, .i dst, .i res, .i rad, .i opts] ++ bs.map SVal.c)
      = .ok (0x10 ::
        fid.toNat ::
        dst.toNat / 256 ^ 7 ::
        dst.toNat / 256 ^ 6 % 256 ::
        dst.toNat / 256 ^ 5 % 256 ::
        dst.toNat / 256 ^ 4 % 256 ::
        dst.toNat / 256 ^ 3 % 256 ::
        dst.toNat / 256 ^ 2 % 256 ::
        dst.toNat / 256 % 256 ::
        dst.toNat % 256 ::
        res.toNat / 256 ::
        res.toNat % 256 ::
        rad.toNat ::
        opts.toNat :: bs) :=
    struct_pack_cons_B 0x10 _ _ _ (by decide) (by decide)
      (struct_pack_cons_B fid _ _ _ h0a h0b
        (struct_pack_cons_Q dst _ _ _ h1a h1b
        (struct_pack_cons_H res _ _ _ h2a h2b
        (struct_pack_cons_B rad _ _ _ h3a h3b
        (struct_pack_cons_B opts _ _ _ h4a h4b
        hc)))))
  have hud := struct_unpack_of_pack _ _ _ hpack
  have hdec : generate_struct_decode
      (0x10 ::
        fid.toNat ::
        dst.toNat / 256 ^ 7 ::
        dst.toNat / 256 ^ 6 % 256 ::
        dst.toNat / 256 ^ 5 % 256 ::
        dst.toNat / 256 ^ 4 % 256 ::
        dst.toNat / 256 ^ 3 % 256 ::
        dst.toNat / 256 ^ 2 % 256 ::
        dst.toNat / 256 % 256 ::
        dst.toNat % 256 ::
        res.toNat / 256 ::
        res.toNat % 256 ::
        rad.toNat ::
        opts.toNat :: bs)
      = .ok ([.tB, .tB, .tQ, .tH, .tB, .tB, .tC (bs.length : Int)],
          [0, 1, 2, 3, 4, 5] ++ List.replicate (bs.map SVal.c).length 6) := by
    unfold generate_struct_decode
    simp only []
    rw [show templates 0x10 = some ⟨"Transmit Request Frame",
          [F "Frame ID" 4 1 "uint8_t",
           F "Destination Address" 5 8 "uint64_t",
           F "Reserved" 13 2 "uint16_t",
           F "Broadcast Radius" 15 1 "uint8_t",
           F "Transmit Options" 16 1 "uint8_t",
           F "RF data" 17 (-1) "bytes"]⟩ from rfl]
    simp only [decode_toks_go, dft_u8, dft_u16, dft_u64, dft_varbytes]
    simp only [List.length_cons]
    simp
    omega
  have hum : unpack_message (0x10 ::
        fid.toNat ::
        dst.toNat / 256 ^ 7 ::
        dst.toNat / 256 ^ 6 % 256 ::
        dst.toNat / 256 ^ 5 % 256 ::
        dst.toNat / 256 ^ 4 % 256 ::
        dst.toNat / 256 ^ 3 % 256 ::
        dst.toNat / 256 ^ 2 % 256 ::
        dst.toNat / 256 % 256 ::
        dst.toNat % 256 ::
        res.toNat / 256 ::
        res.toNat % 256 ::
        rad.toNat ::
        opts.toNat :: bs)
      = (List.range (mask_max ([0, 1, 2, 3, 4, 5] ++ List.replicate (bs.map SVal.c).length 6) + 1)).mapM
        (unpack_component ⟨"Transmit Request Frame",
          [F "Frame ID" 4 1 "uint8_t",
           F "Destination Address" 5 8 "uint64_t",
           F "Reserved" 13 2 "uint16_t",
           F "Broadcast Radius" 15 1 "uint8_t",
           F "Transmit Options" 16 1 "uint8_t",
           F "RF data" 17 (-1) "bytes"]⟩
          ([0, 1, 2, 3, 4, 5] ++ List.replicate (bs.map SVal.c).length 6)
          ([SVal.i 0x10, .i fid, .i dst, .i res, .i rad, .i opts] ++ bs.map SVal.c)) := by
    unfold unpack_message
    rw [hdec]
    simp only []
    rw [hud]
    rfl
  have hmm : mask_max ([0, 1, 2, 3, 4, 5] ++ List.replicate (bs.map SVal.c).length 6) = 6 := by
    rw [mask_max_append_replicate]
    rw [if_neg (by simpa using hbs)]
    decide
  refine ⟨0x10 ::
        fid.toNat ::
        dst.toNat / 256 ^ 7 ::
        dst.toNat / 256 ^ 6 % 256 ::
        dst.toNat / 256 ^ 5 % 256 ::
        dst.toNat / 256 ^ 4 % 256 ::
        dst.toNat / 256 ^ 3 % 256 ::
        dst.toNat / 256 ^ 2 % 256 ::
        dst.toNat / 256 % 256 ::
        dst.toNat % 256 ::
        res.toNat / 256 ::
        res.toNat % 256 ::
        rad.toNat ::
        opts.toNat :: bs, ?_, ?_⟩
  · rw [show pack_message [PyVal.pyInt 0x10, .pyInt fid, .pyInt dst, .pyInt res, .pyInt rad, .pyInt opts, .pyBytes bs]
        = struct_pack [.tB, .tB, .tQ, .tH, .tB, .tB, .tC (bs.length : Int)]
          ([SVal.i 0x10, .i fid, .i dst, .i res, .i rad, .i opts] ++ (bs.map SVal.c ++ [])) from rfl]
    rw [List.append_nil]
    exact hpack
  · rw [hum, hmm]
    rw [mapM_ok_of_mem _ _ (fun i =>
      [PyVal.pyInt 0x10, .pyInt fid, .pyInt dst, .pyInt res, .pyInt rad, .pyInt opts, .pyBytes bs].getD i (.pyStr []))]
    · rfl
    · intro i hi
      rw [List.mem_range] at hi
      interval_cases i
      · exact unpack_component_single_int _ _ _ 0 _ _ rfl
          (by rw [values_at_pre [0, 1, 2, 3, 4, 5] [SVal.i 0x10, .i fid, .i dst, .i res, .i rad, .i opts]
              (bs.map SVal.c) 6 0 rfl (by decide)]; rfl)
      · exact unpack_component_single_int _ _ _ 1 _ _ rfl
          (by rw [values_at_pre [0, 1, 2, 3, 4, 5] [SVal.i 0x10, .i fid, .i dst, .i res, .i rad, .i opts]
              (bs.map SVal.c) 6 1 rfl (by decide)]; rfl)
      · exact unpack_component_single_int _ _ _ 2 _ _ rfl
          (by rw [values_at_pre [0, 1, 2, 3, 4, 5] [SVal.i 0x10, .i fid, .i dst, .i res, .i rad, .i opts]
              (bs.map SVal.c) 6 2 rfl (by decide)]; rfl)
      · exact unpack_component_single_int _ _ _ 3 _ _ rfl
          (by rw [values_at_pre [0, 1, 2, 3, 4, 5] [SVal.i 0x10, .i fid, .i dst, .i res, .i rad, .i opts]
              (bs.map SVal.c) 6 3 rfl (by decide)]; rfl)
      · exact unpack_component_single_int _ _ _ 4 _ _ rfl
          (by rw [values_at_pre [0, 1, 2, 3, 4, 5] [SVal.i 0x10, .i fid, .i dst, .i res, .i rad, .i opts]
              (bs.map SVal.c) 6 4 rfl (by decide)]; rfl)
      · exact unpack_component_single_int _ _ _ 5 _ _ rfl
          (by rw [values_at_pre [0, 1, 2, 3, 4, 5] [SVal.i 0x10, .i fid, .i dst, .i res, .i rad, .i opts]
              (bs.map SVal.c) 6 5 rfl (by decide)]; rfl)
      · exact unpack_component_bytes _ _ _ 6 bs rfl
          (by rw [values_at_tail [0, 1, 2, 3, 4, 5] [SVal.i 0x10, .i fid, .i dst, .i res, .i rad, .i opts]
              (bs.map SVal.c) 6 rfl rfl]) hbs

theorem c1aux11 (fid : Int) (dst : Int) (res : Int) (sep : Int) (dep : Int) (cid : Int) (pid : Int) (rad : Int) (opts : Int) (bs : List Nat)
    (h0a : 0 ≤ fid) (h0b : fid < 256)
    (h1a : 0 ≤ dst) (h1b : dst < 2 ^ 64)
    (h2a : 0 ≤ res) (h2b : res < 65536)
    (h3a : 0 ≤ sep) (h3b : sep < 256)
    (h4a : 0 ≤ dep) (h4b : dep < 256)
    (h5a : 0 ≤ cid) (h5b : cid < 65536)
    (h6a : 0 ≤ pid) (h6b : pid < 65536)
    (h7a : 0 ≤ rad) (h7b : rad < 256)
    (h8a : 0 ≤ opts) (h8b : opts < 256)
    (hbs : bs ≠ []) :
    ∃ p, pack_message [.pyInt 0x11, .pyInt fid, .pyInt dst, .pyInt res, .pyInt sep, .pyInt dep, .pyInt cid, .pyInt pid, .pyInt rad, .pyInt opts, .pyBytes bs]
        = .ok p ∧
      unpack_message p
        = .ok [.pyInt 0x11, .pyInt fid, .pyInt dst, .pyInt res, .pyInt sep, .pyInt dep, .pyInt cid, .pyInt pid, .pyInt rad, .pyInt opts, .pyBytes bs] := by
  have hc : struct_pack [.tC (bs.length : Int)] (bs.map SVal.c) = .ok bs := by
    have h := struct_pack_cons_C bs [] [] [] rfl
    rwa [List.append_nil, List.append_nil] at h
  have hpack : struct_pack [.tB, .tB, .tQ, .tH, .tB, .tB, .tH, .tH, .tB, .tB, .tC (bs.length : Int)]
      ([SVal.i 0x11, .i fid, .i dst, .i res, .i sep, .i dep, .i cid, .i pid, .i rad, .i opts] ++ bs.map SVal.c)
      = .ok (0x11 ::
        fid.toNat ::
        dst.toNat / 256 ^ 7 ::
        dst.toNat / 256 ^ 6 % 256 ::
        dst.toNat / 256 ^ 5 % 256 ::
        dst.toNat / 256 ^ 4 % 256 ::
        dst.toNat / 256 ^ 3 % 256 ::
        dst.toNat / 256 ^ 2 % 256 ::
        dst.toNat / 256 % 256 ::
        dst.toNat % 256 ::
        res.toNat / 256 ::
        res.toNat % 256 ::
        sep.toNat ::
        dep.toNat ::
        cid.toNat / 256 ::
        cid.toNat % 256 ::
        pid.toNat / 256 ::
        pid.toNat % 256 ::
        rad.toNat ::
        opts.toNat :: bs) :=
    struct_pack_cons_B 0x11 _ _ _ (by decide) (by decide)
      (struct_pack_cons_B fid _ _ _ h0a h0b
        (struct_pack_cons_Q dst _ _ _ h1a h1b
        (struct_pack_cons_H res _ _ _ h2a h2b
        (struct_pack_cons_B sep _ _ _ h3a h3b
        (struct_pack_cons_B dep _ _ _ h4a h4b
        (struct_pack_cons_H cid _ _ _ h5a h5b
        (struct_pack_cons_H pid _ _ _ h6a h6b
        (struct_pack_cons_B rad _ _ _ h7a h7b
        (struct_pack_cons_B opts _ _ _ h8a h8b
        hc)))))))))
  have hud := struct_unpack_of_pack _ _ _ hpack
  have hdec : generate_struct_decode
      (0x11 ::
        fid.toNat ::
        dst.toNat / 256 ^ 7 ::
        dst.toNat / 256 ^ 6 % 256 ::
        dst.toNat / 256 ^ 5 % 256 ::
        dst.toNat / 256 ^ 4 % 256 ::
        dst.toNat / 256 ^ 3 % 256 ::
        dst.toNat / 256 ^ 2 % 256 ::
        dst.toNat / 256 % 256 ::
        dst.toNat % 256 ::
        res.toNat / 256 ::
        res.toNat % 256 ::
        sep.toNat ::
        dep.toNat ::
        cid.toNat / 256 ::
        cid.toNat % 256 ::
        pid.toNat / 256 ::
        pid.toNat % 256 ::
        rad.toNat ::
        opts.toNat :: bs)
      = .ok ([.tB, .tB, .tQ, .tH, .tB, .tB, .tH, .tH, .tB, .tB, .tC (bs.length : Int)],
          [0, 1, 2, 3, 4, 5, 6, 7, 8, 9] ++ List.replicate (bs.map SVal.c).length 10) := by
    unfold generate_struct_decode
    simp only []
    rw [show templates 0x11 = some ⟨"Explicit Addressing Command Frame",
          [F "Frame ID" 4 1 "uint8_t",
           F "Destination Address" 5 8 "uint64_t",
           F "Reserved" 13 2 "uint16_t",
           F "Source endpoint" 15 1 "uint8_t",
           F "Destination endpoint" 16 1 "uint8_t",
           F "Cluster ID" 17 2 "uint16_t",
           F "Profile ID" 19 2 "uint16_t",
           F "Broadcast Radius" 21 1 "uint8_t",
           F "Transmit Options" 22 1 "uint8_t",
           F "RF data" 23 (-1) "bytes"]⟩ from rfl]
    simp only [decode_toks_go, dft_u8, dft_u16, dft_u64, dft_varbytes]
    simp only [List.length_cons]
    simp
    omega
  have hum : unpack_message (0x11 ::
        fid.toNat ::
        dst.toNat / 256 ^ 7 ::
        dst.toNat / 256 ^ 6 % 256 ::
        dst.toNat / 256 ^ 5 % 256 ::
        dst.toNat / 256 ^ 4 % 256 ::
        dst.toNat / 256 ^ 3 % 256 ::
        dst.toNat / 256 ^ 2 % 256 ::
        dst.toNat / 256 % 256 ::
        dst.toNat % 256 ::
        res.toNat / 256 ::
        res.toNat % 256 ::
        sep.toNat ::
        dep.toNat ::
        cid.toNat / 256 ::
        cid.toNat % 256 ::
        pid.toNat / 256 ::
        pid.toNat % 256 ::
        rad.toNat ::
        opts.toNat :: bs)
      = (List.range (mask_max ([0, 1, 2, 3, 4, 5, 6, 7, 8, 9] ++ List.replicate (bs.map SVal.c).length 10) + 1)).mapM
        (unpack_component ⟨"Explicit Addressing Command Frame",
          [F "Frame ID" 4 1 "uint8_t",
           F "Destination Address" 5 8 "uint64_t",
           F "Reserved" 13 2 "uint16_t",
           F "Source endpoint" 15 1 "uint8_t",
           F "Destination endpoint" 16 1 "uint8_t",
           F "Cluster ID" 17 2 "uint16_t",
           F "Profile ID" 19 2 "uint16_t",
           F "Broadcast Radius" 21 1 "uint8_t",
           F "Transmit Options" 22 1 "uint8_t",
           F "RF data" 23 (-1) "bytes"]⟩
          ([0, 1, 2, 3, 4, 5, 6, 7, 8, 9] ++ List.replicate (bs.map SVal.c).length 10)
          ([SVal.i 0x11, .i fid, .i dst, .i res, .i sep, .i dep, .i cid, .i pid, .i rad, .i opts] ++ bs.map SVal.c)) := by
    unfold unpack_message
    rw [hdec]
    simp only []
    rw [hud]
    rfl
  have hmm : mask_max ([0, 1, 2, 3, 4, 5, 6, 7, 8, 9] ++ List.replicate (bs.map SVal.c).length 10) = 10 := by
    rw [mask_max_append_replicate]
    rw [if_neg (by simpa using hbs)]
    decide
  refine ⟨0x11 ::
        fid.toNat ::
        dst.toNat / 256 ^ 7 ::
        dst.toNat / 256 ^ 6 % 256 ::
        dst.toNat / 256 ^ 5 % 256 ::
        dst.toNat / 256 ^ 4 % 256 ::
        dst.toNat / 256 ^ 3 % 256 ::
        dst.toNat / 256 ^ 2 % 256 ::
        dst.toNat / 256 % 256 ::
        dst.toNat % 256 ::
        res.toNat / 256 ::
        res.toNat % 256 ::
        sep.toNat ::
        dep.toNat ::
        cid.toNat / 256 ::
        cid.toNat % 256 ::
        pid.toNat / 256 ::
        pid.toNat % 256 ::
        rad.toNat ::
        opts.toNat :: bs, ?_, ?_⟩
  · rw [show pack_message [PyVal.pyInt 0x11, .pyInt fid, .pyInt dst, .pyInt res, .pyInt sep, .pyInt dep, .pyInt cid, .pyInt pid, .pyInt rad, .pyInt opts, .pyBytes bs]
        = struct_pack [.tB, .tB, .tQ, .tH, .tB, .tB, .tH, .tH, .tB, .tB, .tC (bs.length : Int)]
          ([SVal.i 0x11, .i fid, .i dst, .i res, .i sep, .i dep, .i cid, .i pid, .i rad, .i opts] ++ (bs.map SVal.c ++ [])) from rfl]
    rw [List.append_nil]
    exact hpack
  · rw [hum, hmm]
    rw [mapM_ok_of_mem _ _ (fun i =>
      [PyVal.pyInt 0x11, .pyInt fid, .pyInt dst, .pyInt res, .pyInt sep, .pyInt dep, .pyInt cid, .pyInt pid, .pyInt rad, .pyInt opts, .pyBytes bs].getD i (.pyStr []))]
    · rfl
    · intro i hi
      rw [List.mem_range] at hi
      interval_cases i
      · exact unpack_component_single_int _ _ _ 0 _ _ rfl
          (by rw [values_at_pre [0, 1, 2, 3, 4, 5, 6, 7, 8, 9] [SVal.i 0x11, .i fid, .i dst, .i res, .i sep, .i dep, .i cid, .i pid, .i rad, .i opts]
              (bs.map SVal.c) 10 0 rfl (by decide)]; rfl)
      · exact unpack_component_single_int _ _ _ 1 _ _ rfl
          (by rw [values_at_pre [0, 1, 2, 3, 4, 5, 6, 7, 8, 9] [SVal.i 0x11, .i fid, .i dst, .i res, .i sep, .i dep, .i cid, .i pid, .i rad, .i opts]
              (bs.map SVal.c) 10 1 rfl (by decide)]; rfl)
      · exact unpack_component_single_int _ _ _ 2 _ _ rfl
          (by rw [values_at_pre [0, 1, 2, 3, 4, 5, 6, 7, 8, 9] [SVal.i 0x11, .i fid, .i dst, .i res, .i sep, .i dep, .i cid, .i pid, .i rad, .i opts]
              (bs.map SVal.c) 10 2 rfl (by decide)]; rfl)
      · exact unpack_component_single_int _ _ _ 3 _ _ rfl
          (by rw [values_at_pre [0, 1, 2, 3, 4, 5, 6, 7, 8, 9] [SVal.i 0x11, .i fid, .i dst, .i res, .i sep, .i dep, .i cid, .i pid, .i rad, .i opts]
              (bs.map SVal.c) 10 3 rfl (by decide)]; rfl)
      · exact unpack_component_single_int _ _ _ 4 _ _ rfl
          (by rw [values_at_pre [0, 1, 2, 3, 4, 5, 6, 7, 8, 9] [SVal.i 0x11, .i fid, .i dst, .i res, .i sep, .i dep, .i cid, .i pid, .i rad, .i opts]
              (bs.map SVal.c) 10 4 rfl (by decide)]; rfl)
      · exact unpack_component_single_int _ _ _ 5 _ _ rfl
          (by rw [values_at_pre [0, 1, 2, 3, 4, 5, 6, 7, 8, 9] [SVal.i 0x11, .i fid, .i dst, .i res, .i sep, .i dep, .i cid, .i pid, .i rad, .i opts]
              (bs.map SVal.c) 10 5 rfl (by decide)]; rfl)
      · exact unpack_component_single_int _ _ _ 6 _ _ rfl
          (by rw [values_at_pre [0, 1, 2, 3, 4, 5, 6, 7, 8, 9] [SVal.i 0x11, .i fid, .i dst, .i res, .i sep, .i dep, .i cid, .i pid, .i rad, .i opts]
              (bs.map SVal.c) 10 6 rfl (by decide)]; rfl)
      · exact unpack_component_single_int _ _ _ 7 _ _ rfl
          (by rw [values_at_pre [0, 1, 2, 3, 4, 5, 6, 7, 8, 9] [SVal.i 0x11, .i fid, .i dst, .i res, .i sep, .i dep, .i cid, .i pid, .i rad, .i opts]
              (bs.map SVal.c) 10 7 rfl (by decide)]; rfl)
      · exact unpack_component_single_int _ _ _ 8 _ _ rfl
          (by rw [values_at_pre [0, 1, 2, 3, 4, 5, 6, 7, 8, 9] [SVal.i 0x11, .i fid, .i dst, .i res, .i sep, .i dep, .i cid, .i pid, .i rad, .i opts]
              (bs.map SVal.c) 10 8 rfl (by decide)]; rfl)
      · exact unpack_component_single_int _ _ _ 9 _ _ rfl
          (by rw [values_at_pre [0, 1, 2, 3, 4, 5, 6, 7, 8, 9] [SVal.i 0x11, .i fid, .i dst, .i res, .i sep, .i dep, .i cid, .i pid, .i rad, .i opts]
              (bs.map SVal.c) 10 9 rfl (by decide)]; rfl)
      · exact unpack_component_bytes _ _ _ 10 bs rfl
          (by rw [values_at_tail [0, 1, 2, 3, 4, 5, 6, 7, 8, 9] [SVal.i 0x11, .i fid, .i dst, .i res, .i sep, .i dep, .i cid, .i pid, .i rad, .i opts]
              (bs.map SVal.c) 10 rfl rfl]) hbs

theorem c1aux91 (src : Int) (res : Int) (sep : Int) (dep : Int) (cid : Int) (pid : Int) (opts : Int) (bs : List Nat)
    (h0a : 0 ≤ src) (h0b : src < 2 ^ 64)
    (h1a : 0 ≤ res) (h1b : res < 65536)
    (h2a : 0 ≤ sep) (h2b : sep < 256)
    (h3a : 0 ≤ dep) (h3b : dep < 256)
    (h4a : 0 ≤ cid) (h4b : cid < 65536)
    (h5a : 0 ≤ pid) (h5b : pid < 65536)
    (h6a : 0 ≤ opts) (h6b : opts < 256)
    (hbs : bs ≠ []) :
    ∃ p, pack_message [.pyInt 0x91, .pyInt src, .pyInt res, .pyInt sep, .pyInt dep, .pyInt cid, .pyInt pid, .pyInt opts, .pyBytes bs]
        = .ok p ∧
      unpack_message p
        = .ok [.pyInt 0x91, .pyInt src, .pyInt res, .pyInt sep, .pyInt dep, .pyInt cid, .pyInt pid, .pyInt opts, .pyBytes bs] := by
  have hc : struct_pack [.tC (bs.length : Int)] (bs.map SVal.c) = .ok bs := by
    have h := struct_pack_cons_C bs [] [] [] rfl
    rwa [List.append_nil, List.append_nil] at h
  have hpack : struct_pack [.tB, .tQ, .tH, .tB, .tB, .tH, .tH, .tB, .tC (bs.length : Int)]
      ([SVal.i 0x91, .i src, .i res, .i sep, .i dep, .i cid, .i pid, .i opts] ++ bs.map SVal.c)
      = .ok (0x91 ::
        src.toNat / 256 ^ 7 ::
        src.toNat / 256 ^ 6 % 256 ::
        src.toNat / 256 ^ 5 % 256 ::
        src.toNat / 256 ^ 4 % 256 ::
        src.toNat / 256 ^ 3 % 256 ::
        src.toNat / 256 ^ 2 % 256 ::
        src.toNat / 256 % 256 ::
        src.toNat % 256 ::
        res.toNat / 256 ::
        res.toNat % 256 ::
        sep.toNat ::
        dep.toNat ::
        cid.toNat / 256 ::
        cid.toNat % 256 ::
        pid.toNat / 256 ::
        pid.toNat % 256 ::
        opts.toNat :: bs) :=
    struct_pack_cons_B 0x91 _ _ _ (by decide) (by decide)
      (struct_pack_cons_Q src _ _ _ h0a h0b
        (struct_pack_cons_H res _ _ _ h1a h1b
        (struct_pack_cons_B sep _ _ _ h2a h2b
        (struct_pack_cons_B dep _ _ _ h3a h3b
        (struct_pack_cons_H cid _ _ _ h4a h4b
        (struct_pack_cons_H pid _ _ _ h5a h5b
        (struct_pack_cons_B opts _ _ _ h6a h6b
        hc)))))))
  have hud := struct_unpack_of_pack _ _ _ hpack
  have hdec : generate_struct_decode
      (0x91 ::
        src.toNat / 256 ^ 7 ::
        src.toNat / 256 ^ 6 % 256 ::
        src.toNat / 256 ^ 5 % 256 ::
        src.toNat / 256 ^ 4 % 256 ::
        src.toNat / 256 ^ 3 % 256 ::
        src.toNat / 256 ^ 2 % 256 ::
        src.toNat / 256 % 256 ::
        src.toNat % 256 ::
        res.toNat / 256 ::
        res.toNat % 256 ::
        sep.toNat ::
        dep.toNat ::
        cid.toNat / 256 ::
        cid.toNat % 256 ::
        pid.toNat / 256 ::
        pid.toNat % 256 ::
        opts.toNat :: bs)
      = .ok ([.tB, .tQ, .tH, .tB, .tB, .tH, .tH, .tB, .tC (bs.length : Int)],
          [0, 1, 2, 3, 4, 5, 6, 7] ++ List.replicate (bs.map SVal.c).length 8) := by
    unfold generate_struct_decode
    simp only []
    rw [show templates 0x91 = some ⟨"Explicit Rx Indicator Frame",
          [F "Source Address" 4 8 "uint64_t",
           F "Reserved" 12 2 "uint16_t",
           F "Source endpoint" 14 1 "uint8_t",
           F "Destination endpoint" 15 1 "uint8_t",
           F "Cluster ID" 16 2 "uint16_t",
           F "Profile ID" 18 2 "uint16_t",
           F "Receive options" 20 1 "uint8_t",
           F "Received data" 21 (-1) "bytes"]⟩ from rfl]
    simp only [decode_toks_go, dft_u8, dft_u16, dft_u64, dft_varbytes]
    simp only [List.length_cons]
    simp
    omega
  have hum : unpack_message (0x91 ::
        src.toNat / 256 ^ 7 ::
        src.toNat / 256 ^ 6 % 256 ::
        src.toNat / 256 ^ 5 % 256 ::
        src.toNat / 256 ^ 4 % 256 ::
        src.toNat / 256 ^ 3 % 256 ::
        src.toNat / 256 ^ 2 % 256 ::
        src.toNat / 256 % 256 ::
        src.toNat % 256 ::
        res.toNat / 256 ::
        res.toNat % 256 ::
        sep.toNat ::
        dep.toNat ::
        cid.toNat / 256 ::
        cid.toNat % 256 ::
        pid.toNat / 256 ::
        pid.toNat % 256 ::
        opts.toNat :: bs)
      = (List.range (mask_max ([0, 1, 2, 3, 4, 5, 6, 7] ++ List.replicate (bs.map SVal.c).length 8) + 1)).mapM
        (unpack_component ⟨"Explicit Rx Indicator Frame",
          [F "Source Address" 4 8 "uint64_t",
           F "Reserved" 12 2 "uint16_t",
           F "Source endpoint" 14 1 "uint8_t",
           F "Destination endpoint" 15 1 "uint8_t",
           F "Cluster ID" 16 2 "uint16_t",
           F "Profile ID" 18 2 "uint16_t",
           F "Receive options" 20 1 "uint8_t",
           F "Received data" 21 (-1) "bytes"]⟩
          ([0, 1, 2, 3, 4, 5, 6, 7] ++ List.replicate (bs.map SVal.c).length 8)
          ([SVal.i 0x91, .i src, .i res, .i sep, .i dep, .i cid, .i pid, .i opts] ++ bs.map SVal.c)) := by
    unfold unpack_message
    rw [hdec]
    simp only []
    rw [hud]
    rfl
  have hmm : mask_max ([0, 1, 2, 3, 4, 5, 6, 7] ++ List.replicate (bs.map SVal.c).length 8) = 8 := by
    rw [mask_max_append_replicate]
    rw [if_neg (by simpa using hbs)]
    decide
  refine ⟨0x91 ::
        src.toNat / 256 ^ 7 ::
        src.toNat / 256 ^ 6 % 256 ::
        src.toNat / 256 ^ 5 % 256 ::
        src.toNat / 256 ^ 4 % 256 ::
        src.toNat / 256 ^ 3 % 256 ::
        src.toNat / 256 ^ 2 % 256 ::
        src.toNat / 256 % 256 ::
        src.toNat % 256 ::
        res.toNat / 256 ::
        res.toNat % 256 ::
        sep.toNat ::
        dep.toNat ::
        cid.toNat / 256 ::
        cid.toNat % 256 ::
        pid.toNat / 256 ::
        pid.toNat % 256 ::
        opts.toNat :: bs, ?_, ?_⟩
  · rw [show pack_message [PyVal.pyInt 0x91, .pyInt src, .pyInt res, .pyInt sep, .pyInt dep, .pyInt cid, .pyInt pid, .pyInt opts, .pyBytes bs]
        = struct_pack [.tB, .tQ, .tH, .tB, .tB, .tH, .tH, .tB, .tC (bs.length : Int)]
          ([SVal.i 0x91, .i src, .i res, .i sep, .i dep, .i cid, .i pid, .i opts] ++ (bs.map SVal.c ++ [])) from rfl]
    rw [List.append_nil]
    exact hpack
  · rw [hum, hmm]
    rw [mapM_ok_of_mem _ _ (fun i =>
      [PyVal.pyInt 0x91, .pyInt src, .pyInt res, .pyInt sep, .pyInt dep, .pyInt cid, .pyInt pid, .pyInt opts, .pyBytes bs].getD i (.pyStr []))]
    · rfl
    · intro i hi
      rw [List.mem_range] at hi
      interval_cases i
      · exact unpack_component_single_int _ _ _ 0 _ _ rfl
          (by rw [values_at_pre [0, 1, 2, 3, 4, 5, 6, 7] [SVal.i 0x91, .i src, .i res, .i sep, .i dep, .i cid, .i pid, .i opts]
              (bs.map SVal.c) 8 0 rfl (by decide)]; rfl)
      · exact unpack_component_single_int _ _ _ 1 _ _ rfl
          (by rw [values_at_pre [0, 1, 2, 3, 4, 5, 6, 7] [SVal.i 0x91, .i src, .i res, .i sep, .i dep, .i cid, .i pid, .i opts]
              (bs.map SVal.c) 8 1 rfl (by decide)]; rfl)
      · exact unpack_component_single_int _ _ _ 2 _ _ rfl
          (by rw [values_at_pre [0, 1, 2, 3, 4, 5, 6, 7] [SVal.i 0x91, .i src, .i res, .i sep, .i dep, .i cid, .i pid, .i opts]
              (bs.map SVal.c) 8 2 rfl (by decide)]; rfl)
      · exact unpack_component_single_int _ _ _ 3 _ _ rfl
          (by rw [values_at_pre [0, 1, 2, 3, 4, 5, 6, 7] [SVal.i 0x91, .i src, .i res, .i sep, .i dep, .i cid, .i pid, .i opts]
              (bs.map SVal.c) 8 3 rfl (by decide)]; rfl)
      · exact unpack_component_single_int _ _ _ 4 _ _ rfl
          (by rw [values_at_pre [0, 1, 2, 3, 4, 5, 6, 7] [SVal.i 0x91, .i src, .i res, .i sep, .i dep, .i cid, .i pid, .i opts]
              (bs.map SVal.c) 8 4 rfl (by decide)]; rfl)
      · exact unpack_component_single_int _ _ _ 5 _ _ rfl
          (by rw [values_at_pre [0, 1, 2, 3, 4, 5, 6, 7] [SVal.i 0x91, .i src, .i res, .i sep, .i dep, .i cid, .i pid, .i opts]
              (bs.map SVal.c) 8 5 rfl (by decide)]; rfl)
      · exact unpack_component_single_int _ _ _ 6 _ _ rfl
          (by rw [values_at_pre [0, 1, 2, 3, 4, 5, 6, 7] [SVal.i 0x91, .i src, .i res, .i sep, .i dep, .i cid, .i pid, .i opts]
              (bs.map SVal.c) 8 6 rfl (by decide)]; rfl)
      · exact unpack_component_single_int _ _ _ 7 _ _ rfl
          (by rw [values_at_pre [0, 1, 2, 3, 4, 5, 6, 7] [SVal.i 0x91, .i src, .i res, .i sep, .i dep, .i cid, .i pid, .i opts]
              (bs.map SVal.c) 8 7 rfl (by decide)]; rfl)
      · exact unpack_component_bytes _ _ _ 8 bs rfl
          (by rw [values_at_tail [0, 1, 2, 3, 4, 5, 6, 7] [SVal.i 0x91, .i src, .i res, .i sep, .i dep, .i cid, .i pid, .i opts]
              (bs.map SVal.c) 8 rfl rfl]) hbs

theorem legal_val_u8 (nm : String) (s : Int) (v : PyVal)
    (h : legal_val (F nm s 1 "uint8_t") v = true) :
    ∃ n, v = .pyInt n ∧ 0 ≤ n ∧ n < 256 := by
  cases v with
  | pyInt n => exact ⟨n, rfl, by simpa [legal_val, F] using h⟩
  | pyBytes bs => simp [legal_val, F] at h
  | pyStr cs => simp [legal_val, F] at h

theorem legal_val_u16 (nm : String) (s : Int) (v : PyVal)
    (h : legal_val (F nm s 2 "uint16_t") v = true) :
    ∃ n, v = .pyInt n ∧ 0 ≤ n ∧ n < 65536 := by
  cases v with
  | pyInt n => exact ⟨n, rfl, by simpa [legal_val, F] using h⟩
  | pyBytes bs => simp [legal_val, F] at h
  | pyStr cs => simp [legal_val, F] at h

theorem legal_val_u64 (nm : String) (s : Int) (v : PyVal)
    (h : legal_val (F nm s 8 "uint64_t") v = true) :
    ∃ n, v = .pyInt n ∧ 0 ≤ n ∧ n < 2 ^ 64 := by
  cases v with
  | pyInt n => exact ⟨n, rfl, by simpa [legal_val, F] using h⟩
  | pyBytes bs => simp [legal_val, F] at h
  | pyStr cs => simp [legal_val, F] at h

theorem legal_val_varbytes (nm : String) (s : Int) (v : PyVal)
    (h : legal_val (F nm s (-1) "bytes") v = true) :
    ∃ bs, v = .pyBytes bs ∧ bs ≠ [] := by
  cases v with
  | pyInt n => simp [legal_val, F] at h
  | pyBytes bs =>
    refine ⟨bs, rfl, ?_⟩
    simp [legal_val, F] at h
    exact h.1
  | pyStr cs => simp [legal_val, F] at h

theorem templates_str_free_cases (t : Nat) (tmpl : Template)
    (hlook : templates t = some tmpl) (hsf : str_free tmpl = true) :
    (t = 0x10 ∧ tmpl = ⟨"Transmit Request Frame",
      [F "Frame ID" 4 1 "uint8_t", F "Destination Address" 5 8 "uint64_t",
       F "Reserved" 13 2 "uint16_t", F "Broadcast Radius" 15 1 "uint8_t",
       F "Transmit Options" 16 1 "uint8_t", F "RF data" 17 (-1) "bytes"]⟩) ∨
    (t = 0x11 ∧ tmpl = ⟨"Explicit Addressing Command Frame",
      [F "Frame ID" 4 1 "uint8_t", F "Destination Address" 5 8 "uint64_t",
       F "Reserved" 13 2 "uint16_t", F "Source endpoint" 15 1 "uint8_t",
       F "Destination endpoint" 16 1 "uint8_t", F "Cluster ID" 17 2 "uint16_t",
       F "Profile ID" 19 2 "uint16_t", F "Broadcast Radius" 21 1 "uint8_t",
       F "Transmit Options" 22 1 "uint8_t", F "RF data" 23 (-1) "bytes"]⟩) ∨
    (t = 0x89 ∧ tmpl = ⟨"TX Status Frame",
      [F "Frame ID" 4 1 "uint8_t", F "Status" 5 1 "uint8_t"]⟩) ∨
    (t = 0x8A ∧ tmpl = ⟨"Modem Status Frame", [F "Status" 4 1 "uint8_t"]⟩) ∨
    (t = 0x8B ∧ tmpl = ⟨"Transmit Status Frame",
      [F "Frame ID" 4 1 "uint8_t", F "Reserved" 5 2 "uint16_t",
       F "Transmit Retry Count" 7 1 "uint8_t", F "Delivery Status" 8 1 "uint8_t",
       F "Discovery Status" 9 1 "uint8_t"]⟩) ∨
    (t = 0x90 ∧ tmpl = ⟨"Receive Packet Frame",
      [F "Source Address" 4 8 "uint64_t", F "Reserved" 12 2 "uint16_t",
       F "Receive options" 14 1 "uint8_t", F "Received data" 15 (-1) "bytes"]⟩) ∨
    (t = 0x91 ∧ tmpl = ⟨"Explicit Rx Indicator Frame",
      [F "Source Address" 4 8 "uint64_t", F "Reserved" 12 2 "uint16_t",
       F "Source endpoint" 14 1 "uint8_t", F "Destination endpoint" 15 1 "uint8_t",
       F "Cluster ID" 16 2 "uint16_t", F "Profile ID" 18 2 "uint16_t",
       F "Receive options" 20 1 "uint8_t", F "Received data" 21 (-1) "bytes"]⟩) := by
  unfold templates at hlook
  by_cases h08 : t = 0x08
  · rw [if_pos h08] at hlook
    injection hlook with hl
    subst hl
    exact absurd hsf (by decide)
  rw [if_neg h08] at hlook
  by_cases h09 : t = 0x09
  · rw [if_pos h09] at hlook
    injection hlook with hl
    subst hl
    exact absurd hsf (by decide)
  rw [if_neg h09] at hlook
  by_cases h10 : t = 0x10
  · rw [if_pos h10] at hlook
    injection hlook with hl
    exact Or.inl ⟨h10, hl.symm⟩
  rw [if_neg h10] at hlook
  by_cases h11 : t = 0x11
  · rw [if_pos h11] at hlook
    injection hlook with hl
    exact Or.inr (Or.inl ⟨h11, hl.symm⟩)
  rw [if_neg h11] at hlook
  by_cases h17 : t = 0x17
  · rw [if_pos h17] at hlook
    injection hlook with hl
    subst hl
    exact absurd hsf (by decide)
  rw [if_neg h17] at hlook
  by_cases h88 : t = 0x88
  · rw [if_pos h88] at hlook
    injection hlook with hl
    subst hl
    exact absurd hsf (by decide)
  rw [if_neg h88] at hlook
  by_cases h89 : t = 0x89
  · rw [if_pos h89] at hlook
    injection hlook with hl
    exact Or.inr (Or.inr (Or.inl ⟨h89, hl.symm⟩))
  rw [if_neg h89] at hlook
  by_cases h8A : t = 0x8A
  · rw [if_pos h8A] at hlook
    injection hlook with hl
    exact Or.inr (Or.inr (Or.inr (Or.inl ⟨h8A, hl.symm⟩)))
  rw [if_neg h8A] at hlook
  by_cases h8B : t = 0x8B
  · rw [if_pos h8B] at hlook
    injection hlook with hl
    exact Or.inr (Or.inr (Or.inr (Or.inr (Or.inl ⟨h8B, hl.symm⟩))))
  rw [if_neg h8B] at hlook
  by_cases h90 : t = 0x90
  · rw [if_pos h90] at hlook
    injection hlook with hl
    exact Or.inr (Or.inr (Or.inr (Or.inr (Or.inr (Or.inl ⟨h90, hl.symm⟩)))))
  rw [if_neg h90] at hlook
  by_cases h91 : t = 0x91
  · rw [if_pos h91] at hlook
    injection hlook with hl
    exact Or.inr (Or.inr (Or.inr (Or.inr (Or.inr (Or.inr (⟨h91, hl.symm⟩))))))
  rw [if_neg h91] at hlook
  by_cases h97 : t = 0x97
  · rw [if_pos h97] at hlook
    injection hlook with hl
    subst hl
    exact absurd hsf (by decide)
  rw [if_neg h97] at hlook
  exact absurd hlook (by simp)

/-- Claim C1 (corrected): for every registered schema with no string-typed
field and every legal ordered argument assignment, packing succeeds,
unpacking the packed payload reproduces the arguments field-for-field, and
(whenever the payload fits the 16-bit length field) decoding the wire frame
encoded from the payload reproduces the payload bytes exactly. -/
theorem c1_str_free_roundtrip (t : Nat) (tmpl : Template) (args : List PyVal)
    (ht : templates t = some tmpl) (hsf : str_free tmpl = true)
    (hla : legal_args t tmpl args = true) :
    ∃ p, pack_message args = .ok p ∧ unpack_message p = .ok args ∧
      (p.length < 65536 → xbee_read (prepare_write p) = .ok (some p)) := by
  unfold legal_args at hla
  rw [Bool.and_eq_true, Bool.and_eq_true] at hla
  obtain ⟨⟨hhead, hlen⟩, hall⟩ := hla
  rw [beq_iff_eq] at hhead hlen
  rcases templates_str_free_cases t tmpl ht hsf with
    ⟨rfl, rfl⟩ | ⟨rfl, rfl⟩ | ⟨rfl, rfl⟩ | ⟨rfl, rfl⟩ | ⟨rfl, rfl⟩ | ⟨rfl, rfl⟩ | ⟨rfl, rfl⟩
  · have hlen7 : args.length = 7 := by simpa using hlen
    obtain ⟨a0, args, rfl, hl6⟩ := cons_of_length_succ args 6 hlen7
    obtain ⟨a1, args, rfl, hl5⟩ := cons_of_length_succ args 5 hl6
    obtain ⟨a2, args, rfl, hl4⟩ := cons_of_length_succ args 4 hl5
    obtain ⟨a3, args, rfl, hl3⟩ := cons_of_length_succ args 3 hl4
    obtain ⟨a4, args, rfl, hl2⟩ := cons_of_length_succ args 2 hl3
    obtain ⟨a5, args, rfl, hl1⟩ := cons_of_length_succ args 1 hl2
    obtain ⟨a6, args, rfl, hl0⟩ := cons_of_length_succ args 0 hl1
    rw [List.length_eq_zero] at hl0
    subst hl0
    have ha0 : a0 = .pyInt 0x10 := by simpa using hhead
    subst ha0
    rw [List.all_eq_true] at hall
    obtain ⟨fid, rfl, h0a, h0b⟩ := legal_val_u8 "Frame ID" 4 a1
      (hall (F "Frame ID" 4 1 "uint8_t", a1) (by simp))
    obtain ⟨dst, rfl, h1a, h1b⟩ := legal_val_u64 "Destination Address" 5 a2
      (hall (F "Destination Address" 5 8 "uint64_t", a2) (by simp))
    obtain ⟨res, rfl, h2a, h2b⟩ := legal_val_u16 "Reserved" 13 a3
      (hall (F "Reserved" 13 2 "uint16_t", a3) (by simp))
    obtain ⟨rad, rfl, h3a, h3b⟩ := legal_val_u8 "Broadcast Radius" 15 a4
      (hall (F "Broadcast Radius" 15 1 "uint8_t", a4) (by simp))
    obtain ⟨opts, rfl, h4a, h4b⟩ := legal_val_u8 "Transmit Options" 16 a5
      (hall (F "Transmit Options" 16 1 "uint8_t", a5) (by simp))
    obtain ⟨bs, rfl, hbs⟩ := legal_val_varbytes "RF data" 17 a6
      (hall (F "RF data" 17 (-1) "bytes", a6) (by simp))
    obtain ⟨p, hp, hu⟩ := c1aux10 fid dst res rad opts bs h0a h0b h1a h1b h2a h2b h3a h3b h4a h4b hbs
    exact ⟨p, hp, hu, fun hlt => xbee_read_prepare_write p hlt⟩
  · have hlen11 : args.length = 11 := by simpa using hlen
    obtain ⟨a0, args, rfl, hl10⟩ := cons_of_length_succ args 10 hlen11
    obtain ⟨a1, args, rfl, hl9⟩ := cons_of_length_succ args 9 hl10
    obtain ⟨a2, args, rfl, hl8⟩ := cons_of_length_succ args 8 hl9
    obtain ⟨a3, args, rfl, hl7⟩ := cons_of_length_succ args 7 hl8
    obtain ⟨a4, args, rfl, hl6⟩ := cons_of_length_succ args 6 hl7
    obtain ⟨a5, args, rfl, hl5⟩ := cons_of_length_succ args 5 hl6
    obtain ⟨a6, args, rfl, hl4⟩ := cons_of_length_succ args 4 hl5
    obtain ⟨a7, args, rfl, hl3⟩ := cons_of_length_succ args 3 hl4
    obtain ⟨a8, args, rfl, hl2⟩ := cons_of_length_succ args 2 hl3
    obtain ⟨a9, args, rfl, hl1⟩ := cons_of_length_succ args 1 hl2
    obtain ⟨a10, args, rfl, hl0⟩ := cons_of_length_succ args 0 hl1
    rw [List.length_eq_zero] at hl0
    subst hl0
    have ha0 : a0 = .pyInt 0x11 := by simpa using hhead
    subst ha0
    rw [List.all_eq_true] at hall
    obtain ⟨fid, rfl, h0a, h0b⟩ := legal_val_u8 "Frame ID" 4 a1
      (hall (F "Frame ID" 4 1 "uint8_t", a1) (by simp))
    obtain ⟨dst, rfl, h1a, h1b⟩ := legal_val_u64 "Destination Address" 5 a2
      (hall (F "Destination Address" 5 8 "uint64_t", a2) (by simp))
    obtain ⟨res, rfl, h2a, h2b⟩ := legal_val_u16 "Reserved" 13 a3
      (hall (F "Reserved" 13 2 "uint16_t", a3) (by simp))
    obtain ⟨sep, rfl, h3a, h3b⟩ := legal_val_u8 "Source endpoint" 15 a4
      (hall (F "Source endpoint" 15 1 "uint8_t", a4) (by simp))
    obtain ⟨dep, rfl, h4a, h4b⟩ := legal_val_u8 "Destination endpoint" 16 a5
      (hall (F "Destination endpoint" 16 1 "uint8_t", a5) (by simp))
    obtain ⟨cid, rfl, h5a, h5b⟩ := legal_val_u16 "Cluster ID" 17 a6
      (hall (F "Cluster ID" 17 2 "uint16_t", a6) (by simp))
    obtain ⟨pid, rfl, h6a, h6b⟩ := legal_val_u16 "Profile ID" 19 a7
      (hall (F "Profile ID" 19 2 "uint16_t", a7) (by simp))
    obtain ⟨rad, rfl, h7a, h7b⟩ := legal_val_u8 "Broadcast Radius" 21 a8
      (hall (F "Broadcast Radius" 21 1 "uint8_t", a8) (by simp))
    obtain ⟨opts, rfl, h8a, h8b⟩ := legal_val_u8 "Transmit Options" 22 a9
      (hall (F "Transmit Options" 22 1 "uint8_t", a9) (by simp))
    obtain ⟨bs, rfl, hbs⟩ := legal_val_varbytes "RF data" 23 a10
      (hall (F "RF data" 23 (-1) "bytes", a10) (by simp))
    obtain ⟨p, hp, hu⟩ := c1aux11 fid dst res sep dep cid pid rad opts bs h0a h0b h1a h1b h2a h2b h3a h3b h4a h4b h5a h5b h6a h6b h7a h7b h8a h8b hbs
    exact ⟨p, hp, hu, fun hlt => xbee_read_prepare_write p hlt⟩
  · have hlen3 : args.length = 3 := by simpa using hlen
    obtain ⟨a0, args, rfl, hl2⟩ := cons_of_length_succ args 2 hlen3
    obtain ⟨a1, args, rfl, hl1⟩ := cons_of_length_succ args 1 hl2
    obtain ⟨a2, args, rfl, hl0⟩ := cons_of_length_succ args 0 hl1
    rw [List.length_eq_zero] at hl0
    subst hl0
    have ha0 : a0 = .pyInt 0x89 := by simpa using hhead
    subst ha0
    rw [List.all_eq_true] at hall
    obtain ⟨fid, rfl, h0a, h0b⟩ := legal_val_u8 "Frame ID" 4 a1
      (hall (F "Frame ID" 4 1 "uint8_t", a1) (by simp))
    obtain ⟨st, rfl, h1a, h1b⟩ := legal_val_u8 "Status" 5 a2
      (hall (F "Status" 5 1 "uint8_t", a2) (by simp))
    obtain ⟨p, hp, hu⟩ := c1aux89 fid st h0a h0b h1a h1b
    exact ⟨p, hp, hu, fun hlt => xbee_read_prepare_write p hlt⟩
  · have hlen2 : args.length = 2 := by simpa using hlen
    obtain ⟨a0, args, rfl, hl1⟩ := cons_of_length_succ args 1 hlen2
    obtain ⟨a1, args, rfl, hl0⟩ := cons_of_length_succ args 0 hl1
    rw [List.length_eq_zero] at hl0
    subst hl0
    have ha0 : a0 = .pyInt 0x8A := by simpa using hhead
    subst ha0
    rw [List.all_eq_true] at hall
    obtain ⟨st, rfl, h0a, h0b⟩ := legal_val_u8 "Status" 4 a1
      (hall (F "Status" 4 1 "uint8_t", a1) (by simp))
    obtain ⟨p, hp, hu⟩ := c1aux8A st h0a h0b
    exact ⟨p, hp, hu, fun hlt => xbee_read_prepare_write p hlt⟩
  · have hlen6 : args.length = 6 := by simpa using hlen
    obtain ⟨a0, args, rfl, hl5⟩ := cons_of_length_succ args 5 hlen6
    obtain ⟨a1, args, rfl, hl4⟩ := cons_of_length_succ args 4 hl5
    obtain ⟨a2, args, rfl, hl3⟩ := cons_of_length_succ args 3 hl4
    obtain ⟨a3, args, rfl, hl2⟩ := cons_of_length_succ args 2 hl3
    obtain ⟨a4, args, rfl, hl1⟩ := cons_of_length_succ args 1 hl2
    obtain ⟨a5, args, rfl, hl0⟩ := cons_of_length_succ args 0 hl1
    rw [List.length_eq_zero] at hl0
    subst hl0
    have ha0 : a0 = .pyInt 0x8B := by simpa using hhead
    subst ha0
    rw [List.all_eq_true] at hall
    obtain ⟨fid, rfl, h0a, h0b⟩ := legal_val_u8 "Frame ID" 4 a1
      (hall (F "Frame ID" 4 1 "uint8_t", a1) (by simp))
    obtain ⟨res, rfl, h1a, h1b⟩ := legal_val_u16 "Reserved" 5 a2
      (hall (F "Reserved" 5 2 "uint16_t", a2) (by simp))
    obtain ⟨rty, rfl, h2a, h2b⟩ := legal_val_u8 "Transmit Retry Count" 7 a3
      (hall (F "Transmit Retry Count" 7 1 "uint8_t", a3) (by simp))
    obtain ⟨dlv, rfl, h3a, h3b⟩ := legal_val_u8 "Delivery Status" 8 a4
      (hall (F "Delivery Status" 8 1 "uint8_t", a4) (by simp))
    obtain ⟨dsc, rfl, h4a, h4b⟩ := legal_val_u8 "Discovery Status" 9 a5
      (hall (F "Discovery Status" 9 1 "uint8_t", a5) (by simp))
    obtain ⟨p, hp, hu⟩ := c1aux8B fid res rty dlv dsc h0a h0b h1a h1b h2a h2b h3a h3b h4a h4b
    exact ⟨p, hp, hu, fun hlt => xbee_read_prepare_write p hlt⟩
  · have hlen5 : args.length = 5 := by simpa using hlen
    obtain ⟨a0, args, rfl, hl4⟩ := cons_of_length_succ args 4 hlen5
    obtain ⟨a1, args, rfl, hl3⟩ := cons_of_length_succ args 3 hl4
    obtain ⟨a2, args, rfl, hl2⟩ := cons_of_length_succ args 2 hl3
    obtain ⟨a3, args, rfl, hl1⟩ := cons_of_length_succ args 1 hl2
    obtain ⟨a4, args, rfl, hl0⟩ := cons_of_length_succ args 0 hl1
    rw [List.length_eq_zero] at hl0
    subst hl0
    have ha0 : a0 = .pyInt 0x90 := by simpa using hhead
    subst ha0
    rw [List.all_eq_true] at hall
    obtain ⟨src, rfl, h0a, h0b⟩ := legal_val_u64 "Source Address" 4 a1
      (hall (F "Source Address" 4 8 "uint64_t", a1) (by simp))
    obtain ⟨res, rfl, h1a, h1b⟩ := legal_val_u16 "Reserved" 12 a2
      (hall (F "Reserved" 12 2 "uint16_t", a2) (by simp))
    obtain ⟨opts, rfl, h2a, h2b⟩ := legal_val_u8 "Receive options" 14 a3
      (hall (F "Receive options" 14 1 "uint8_t", a3) (by simp))
    obtain ⟨bs, rfl, hbs⟩ := legal_val_varbytes "Received data" 15 a4
      (hall (F "Received data" 15 (-1) "bytes", a4) (by simp))
    obtain ⟨p, hp, hu⟩ := c1aux90 src res opts bs h0a h0b h1a h1b h2a h2b hbs
    exact ⟨p, hp, hu, fun hlt => xbee_read_prepare_write p hlt⟩
  · have hlen9 : args.length = 9 := by simpa using hlen
    obtain ⟨a0, args, rfl, hl8⟩ := cons_of_length_succ args 8 hlen9
    obtain ⟨a1, args, rfl, hl7⟩ := cons_of_length_succ args 7 hl8
    obtain ⟨a2, args, rfl, hl6⟩ := cons_of_length_succ args 6 hl7
    obtain ⟨a3, args, rfl, hl5⟩ := cons_of_length_succ args 5 hl6
    obtain ⟨a4, args, rfl, hl4⟩ := cons_of_length_succ args 4 hl5
    obtain ⟨a5, args, rfl, hl3⟩ := cons_of_length_succ args 3 hl4
    obtain ⟨a6, args, rfl, hl2⟩ := cons_of_length_succ args 2 hl3
    obtain ⟨a7, args, rfl, hl1⟩ := cons_of_length_succ args 1 hl2
    obtain ⟨a8, args, rfl, hl0⟩ := cons_of_length_succ args 0 hl1
    rw [List.length_eq_zero] at hl0
    subst hl0
    have ha0 : a0 = .pyInt 0x91 := by simpa using hhead
    subst ha0
    rw [List.all_eq_true] at hall
    obtain ⟨src, rfl, h0a, h0b⟩ := legal_val_u64 "Source Address" 4 a1
      (hall (F "Source Address" 4 8 "uint64_t", a1) (by simp))
    obtain ⟨res, rfl, h1a, h1b⟩ := legal_val_u16 "Reserved" 12 a2
      (hall (F "Reserved" 12 2 "uint16_t", a2) (by simp))
    obtain ⟨sep, rfl, h2a, h2b⟩ := legal_val_u8 "Source endpoint" 14 a3
      (hall (F "Source endpoint" 14 1 "uint8_t", a3) (by simp))
    obtain ⟨dep, rfl, h3a, h3b⟩ := legal_val_u8 "Destination endpoint" 15 a4
      (hall (F "Destination endpoint" 15 1 "uint8_t", a4) (by simp))
    obtain ⟨cid, rfl, h4a, h4b⟩ := legal_val_u16 "Cluster ID" 16 a5
      (hall (F "Cluster ID" 16 2 "uint16_t", a5) (by simp))
    obtain ⟨pid, rfl, h5a, h5b⟩ := legal_val_u16 "Profile ID" 18 a6
      (hall (F "Profile ID" 18 2 "uint16_t", a6) (by simp))
    obtain ⟨opts, rfl, h6a, h6b⟩ := legal_val_u8 "Receive options" 20 a7
      (hall (F "Receive options" 20 1 "uint8_t", a7) (by simp))
    obtain ⟨bs, rfl, hbs⟩ := legal_val_varbytes "Received data" 21 a8
      (hall (F "Received data" 21 (-1) "bytes", a8) (by simp))
    obtain ⟨p, hp, hu⟩ := c1aux91 src res sep dep cid pid opts bs h0a h0b h1a h1b h2a h2b h3a h3b h4a h4b h5a h5b h6a h6b hbs
    exact ⟨p, hp, hu, fun hlt => xbee_read_prepare_write p hlt⟩

theorem c1_counterexample :
    (templates 0x08 = some ⟨"AT Command Frame",
      [F "Frame ID" 4 1 "uint8_t", F "AT Command" 5 2 "str",
       FO "Parameter Value" 7 (-1) "bytes" "optional"]⟩) ∧
    legal_args 0x08 ⟨"AT Command Frame",
      [F "Frame ID" 4 1 "uint8_t", F "AT Command" 5 2 "str",
       FO "Parameter Value" 7 (-1) "bytes" "optional"]⟩
      [.pyInt 0x08, .pyInt 1, .pyStr [65, 66], .pyBytes [5]] = true ∧
    pack_message [.pyInt 0x08, .pyInt 1, .pyStr [65, 66], .pyBytes [5]]
      = .error .structError :=
  ⟨rfl, by decide, rfl⟩

theorem c1_str_free_roundtrip_witness :
    (templates 0x10 = some ⟨"Transmit Request Frame",
      [F "Frame ID" 4 1 "uint8_t", F "Destination Address" 5 8 "uint64_t",
       F "Reserved" 13 2 "uint16_t", F "Broadcast Radius" 15 1 "uint8_t",
       F "Transmit Options" 16 1 "uint8_t", F "RF data" 17 (-1) "bytes"]⟩) ∧
    str_free ⟨"Transmit Request Frame",
      [F "Frame ID" 4 1 "uint8_t", F "Destination Address" 5 8 "uint64_t",
       F "Reserved" 13 2 "uint16_t", F "Broadcast Radius" 15 1 "uint8_t",
       F "Transmit Options" 16 1 "uint8_t", F "RF data" 17 (-1) "bytes"]⟩ = true ∧
    legal_args 0x10 ⟨"Transmit Request Frame",
      [F "Frame ID" 4 1 "uint8_t", F "Destination Address" 5 8 "uint64_t",
       F "Reserved" 13 2 "uint16_t", F "Broadcast Radius" 15 1 "uint8_t",
       F "Transmit Options" 16 1 "uint8_t", F "RF data" 17 (-1) "bytes"]⟩
      [.pyInt 0x10, .pyInt 1, .pyInt 0xFFFF, .pyInt 0xFFFE, .pyInt 0, .pyInt 0,
       .pyBytes [2]] = true ∧
    ∃ p, pack_message [.pyInt 0x10, .pyInt 1, .pyInt 0xFFFF, .pyInt 0xFFFE, .pyInt 0,
        .pyInt 0, .pyBytes [2]] = .ok p ∧
      unpack_message p = .ok [.pyInt 0x10, .pyInt 1, .pyInt 0xFFFF, .pyInt 0xFFFE,
        .pyInt 0, .pyInt 0, .pyBytes [2]] ∧
      (p.length < 65536 → xbee_read (prepare_write p) = .ok (some p)) := by
  refine ⟨rfl, by decide, by decide, ?_⟩
  exact c1_str_free_roundtrip 0x10 _ _ rfl (by decide) (by decide)

end XBeeModel
